import Mathlib

/-!
Shallow embedding of the IBC core of this repository
(src/core/ibc/src/lib.rs and src/core/ibc/src/grpc.rs):
the path model, the commitment store adapter capability, the host
context client/channel keepers, the gRPC query services and the
client message service.  Stateful Rust code is modelled as explicit
state passing; fallible calls return an Except value; a Rust panic
(unwrap / expect / panic! / unimplemented! / todo!) is modelled as
the Res.fatal outcome, distinct from a returned error Status.
-/

namespace Axon

/-- Modulus of the Rust u64 type; counters in the source are u64. -/
def u64Mod : Nat := 2 ^ 64

/-- ibc::Height, a (revision_number, revision_height) pair.
Mirrors the shape used by Height::new in the source. -/
structure Height where
  revision_number : Nat
  revision_height : Nat
deriving DecidableEq, Repr

/-- ibc_proto RawHeight as it appears in query responses. -/
structure RawHeight where
  revision_number : Nat
  revision_height : Nat
deriving DecidableEq, Repr

/-- protocol::types::StoreHeight: either a committed height or the
Pending (latest, possibly uncommitted) view. -/
inductive StoreHeight where
  | pending
  | committed (h : Nat)
deriving DecidableEq, Repr

/-- ics24_host identifier for a client: the source builds it with
ClientId::new(client_type, counter), i.e. from the client type tag
and the monotone counter. -/
structure ClientId where
  client_type : String
  counter     : Nat
deriving DecidableEq, Repr

/-- CHAIN_REVISION_NUMBER from src/core/ibc/src/grpc.rs line 63. -/
def CHAIN_REVISION_NUMBER : Nat := 0

/-! ## Path model (ics24_host::Path / protocol::types::Path) -/

/-- path::ClientStatePath, keyed by the client id string. -/
structure ClientStatePath where
  client_id : String
deriving DecidableEq, Repr

/-- path::ClientConsensusStatePath: client id plus the (epoch, height)
of the recorded consensus state. -/
structure ClientConsensusStatePath where
  client_id : String
  epoch     : Nat
  height    : Nat
deriving DecidableEq, Repr

/-- path::ClientConnectionsPath, keyed by the client id. -/
structure ClientConnectionsPath where
  client_id : String
deriving DecidableEq, Repr

/-- path::ConnectionsPath, keyed by the connection id. -/
structure ConnectionsPath where
  connection_id : String
deriving DecidableEq, Repr

/-- path::ChannelEndsPath, keyed by (port, channel). -/
structure ChannelEndsPath where
  port_id    : String
  channel_id : String
deriving DecidableEq, Repr

/-- path::CommitmentsPath, keyed by (port, channel, sequence). -/
structure CommitmentsPath where
  port_id    : String
  channel_id : String
  sequence   : Nat
deriving DecidableEq, Repr

/-- path::AcksPath, keyed by (port, channel, sequence). -/
structure AcksPath where
  port_id    : String
  channel_id : String
  sequence   : Nat
deriving DecidableEq, Repr

/-- path::ReceiptsPath, keyed by (port, channel, sequence). -/
structure ReceiptsPath where
  port_id    : String
  channel_id : String
  sequence   : Nat
deriving DecidableEq, Repr

/-- ics24_host::Path: the typed classification of a stored key. -/
inductive IbcPath where
  | ClientState (p : ClientStatePath)
  | ClientConsensusState (p : ClientConsensusStatePath)
  | ClientConnections (p : ClientConnectionsPath)
  | Connections (p : ConnectionsPath)
  | ChannelEnds (p : ChannelEndsPath)
  | Commitments (p : CommitmentsPath)
  | Acks (p : AcksPath)
  | Receipts (p : ReceiptsPath)
deriving DecidableEq, Repr

/-- Modelled from the spec: a raw stored key (protocol::types::Path,
whose string codec lives outside src/) either classifies into exactly
one typed IbcPath variant, or fails to decode (InvalidPath). -/
inductive RawPath where
  | valid (p : IbcPath)
  | invalid (s : String)
deriving DecidableEq, Repr

/-- Modelled from the spec: Path::try_into::<ics24_host::Path>, the
typed decoding of a raw stored key; decoding a malformed key fails. -/
def tryIntoIbcPath : RawPath → Except String IbcPath
  | .valid p => .ok p
  | .invalid s => .error s

/-- Modelled from the spec: identifier validation performed by
PortId::from_str, ChannelId::from_str, ConnectionId::from_str and
ClientId::parse (ics24 validation, outside src/): malformed request
identifiers are rejected at the boundary.  The model keeps only the
shape that matters: an identifier is a nonempty string with no path
separator. -/
def validIdentifier (s : String) : Bool :=
  s.length > 0 && s.data.all (fun c => c != '/')

/-! ## Protocol values (opaque, client-type-specific payloads) -/

/-- AnyClientState: an opaque client-type-specific payload together
with its client type tag (client_state.client_type() in the source). -/
structure AnyClientState where
  client_type : String
  payload     : List Nat
deriving DecidableEq, Repr

/-- AnyConsensusState: an opaque payload. -/
structure AnyConsensusState where
  payload : List Nat
deriving DecidableEq, Repr

/-- ConnectionEnd: opaque to every query the claims touch. -/
structure ConnectionEnd where
  payload : List Nat
deriving DecidableEq, Repr

/-- ChannelEnd: the connection hop list is inspected by the
connection_channels query; the rest is an opaque payload. -/
structure ChannelEnd where
  connection_hops : List String
  payload         : List Nat
deriving DecidableEq, Repr

/-! ## RPC status and handler outcomes -/

/-- tonic::Status values the handlers construct. -/
inductive Status where
  | invalidArgument (m : String)
  | internal (m : String)
  | dataLoss (m : String)
deriving DecidableEq, Repr

/-- Outcome of one RPC handler invocation: a response, a returned
error Status, or a Rust panic (fatal, never a response). -/
inductive Res (α : Type) where
  | ok (a : α)
  | err (s : Status)
  | fatal (msg : String)
deriving DecidableEq, Repr

/-! ## Commitment Store Adapter capability (protocol::traits::IbcAdapter)

Modelled from the spec: the adapter is an external capability with
point lookups at a (possibly Pending) height, prefix enumeration and
a current-height query; each read can fail with a store error. -/

/-- Commitment Store Adapter capability consumed by the query
services, one field per operation grpc.rs calls. -/
structure Adapter where
  get_paths_by_pfx : String → Except String (List RawPath)
  get_client_state : StoreHeight → ClientStatePath → Except String (Option AnyClientState)
  get_consensus_state : StoreHeight → ClientConsensusStatePath → Except String (Option AnyConsensusState)
  get_connection_end : StoreHeight → ConnectionsPath → Except String (Option ConnectionEnd)
  get_connection_ids : StoreHeight → ClientConnectionsPath → Except String (List String)
  get_channel_end : StoreHeight → ChannelEndsPath → Except String (Option ChannelEnd)
  get_packet_commitment : StoreHeight → CommitmentsPath → Except String (Option (List Nat))
  get_acknowledgement_commitment : StoreHeight → AcksPath → Except String (Option (List Nat))
  get_opt_receipt : StoreHeight → ReceiptsPath → Except String (Option Unit)
  current_height : Nat

/-! ## Request and response messages (ibc_proto, fixed wire schema) -/

structure QueryClientStatesRequest where
deriving DecidableEq, Repr

structure IdentifiedClientState where
  client_id    : String
  client_state : Option AnyClientState
deriving DecidableEq, Repr

structure QueryClientStatesResponse where
  client_states : List IdentifiedClientState
  pagination    : Option Unit
deriving DecidableEq, Repr

structure QueryConsensusStatesRequest where
  client_id : String
deriving DecidableEq, Repr

structure ConsensusStateWithHeight where
  height          : Option RawHeight
  consensus_state : Option AnyConsensusState
deriving DecidableEq, Repr

structure QueryConsensusStatesResponse where
  consensus_states : List ConsensusStateWithHeight
  pagination       : Option Unit
deriving DecidableEq, Repr

structure QueryConnectionRequest where
  connection_id : String
deriving DecidableEq, Repr

structure QueryConnectionResponse where
  connection   : Option ConnectionEnd
  proof        : List Nat
  proof_height : Option RawHeight
deriving DecidableEq, Repr

structure IdentifiedConnectionEnd where
  connection_id  : String
  connection_end : ConnectionEnd
deriving DecidableEq, Repr

structure QueryConnectionsRequest where
deriving DecidableEq, Repr

structure QueryConnectionsResponse where
  connections : List IdentifiedConnectionEnd
  pagination  : Option Unit
  height      : Option RawHeight
deriving DecidableEq, Repr

structure QueryClientConnectionsRequest where
  client_id : String
deriving DecidableEq, Repr

structure QueryClientConnectionsResponse where
  connection_paths : List String
  proof            : List Nat
  proof_height     : Option RawHeight
deriving DecidableEq, Repr

structure QueryChannelRequest where
  port_id    : String
  channel_id : String
deriving DecidableEq, Repr

structure QueryChannelResponse where
  channel      : Option ChannelEnd
  proof        : List Nat
  proof_height : Option RawHeight
deriving DecidableEq, Repr

structure IdentifiedChannelEnd where
  port_id     : String
  channel_id  : String
  channel_end : ChannelEnd
deriving DecidableEq, Repr

structure QueryChannelsRequest where
deriving DecidableEq, Repr

structure QueryChannelsResponse where
  channels   : List IdentifiedChannelEnd
  pagination : Option Unit
  height     : Option RawHeight
deriving DecidableEq, Repr

structure QueryConnectionChannelsRequest where
  connection : String
deriving DecidableEq, Repr

structure QueryConnectionChannelsResponse where
  channels   : List IdentifiedChannelEnd
  pagination : Option Unit
  height     : Option RawHeight
deriving DecidableEq, Repr

structure PacketState where
  port_id    : String
  channel_id : String
  sequence   : Nat
  data       : List Nat
deriving DecidableEq, Repr

structure QueryPacketCommitmentsRequest where
  port_id    : String
  channel_id : String
deriving DecidableEq, Repr

structure QueryPacketCommitmentsResponse where
  commitments : List PacketState
  pagination  : Option Unit
  height      : Option RawHeight
deriving DecidableEq, Repr

structure QueryPacketAcknowledgementsRequest where
  port_id    : String
  channel_id : String
deriving DecidableEq, Repr

structure QueryPacketAcknowledgementsResponse where
  acknowledgements : List PacketState
  pagination       : Option Unit
  height           : Option RawHeight
deriving DecidableEq, Repr

structure QueryUnreceivedPacketsRequest where
  port_id                     : String
  channel_id                  : String
  packet_commitment_sequences : List Nat
deriving DecidableEq, Repr

structure QueryUnreceivedPacketsResponse where
  sequences : List Nat
  height    : Option RawHeight
deriving DecidableEq, Repr

structure QueryUnreceivedAcksRequest where
  port_id              : String
  channel_id           : String
  packet_ack_sequences : List Nat
deriving DecidableEq, Repr

structure QueryUnreceivedAcksResponse where
  sequences : List Nat
  height    : Option RawHeight
deriving DecidableEq, Repr

/-! Requests and responses of the declared-but-unimplemented RPC
surface; each handler aborts before reading its request, so only the
shapes are needed. -/

structure QueryClientStateRequest where
  client_id : String
deriving DecidableEq, Repr

structure QueryClientStateResponse where
deriving DecidableEq, Repr

structure QueryConsensusStateRequest where
  client_id : String
deriving DecidableEq, Repr

structure QueryConsensusStateResponse where
deriving DecidableEq, Repr

structure QueryConsensusStateHeightsRequest where
  client_id : String
deriving DecidableEq, Repr

structure QueryConsensusStateHeightsResponse where
deriving DecidableEq, Repr

structure QueryClientStatusRequest where
  client_id : String
deriving DecidableEq, Repr

structure QueryClientStatusResponse where
deriving DecidableEq, Repr

structure QueryClientParamsRequest where
deriving DecidableEq, Repr

structure QueryClientParamsResponse where
deriving DecidableEq, Repr

structure QueryUpgradedClientStateRequest where
deriving DecidableEq, Repr

structure QueryUpgradedClientStateResponse where
deriving DecidableEq, Repr

structure QueryUpgradedConsensusStateRequest where
deriving DecidableEq, Repr

structure QueryUpgradedConsensusStateResponse where
deriving DecidableEq, Repr

structure QueryConnectionClientStateRequest where
  connection_id : String
deriving DecidableEq, Repr

structure QueryConnectionClientStateResponse where
deriving DecidableEq, Repr

structure QueryConnectionConsensusStateRequest where
  connection_id : String
deriving DecidableEq, Repr

structure QueryConnectionConsensusStateResponse where
deriving DecidableEq, Repr

structure QueryChannelClientStateRequest where
  port_id    : String
  channel_id : String
deriving DecidableEq, Repr

structure QueryChannelClientStateResponse where
deriving DecidableEq, Repr

structure QueryChannelConsensusStateRequest where
  port_id    : String
  channel_id : String
deriving DecidableEq, Repr

structure QueryChannelConsensusStateResponse where
deriving DecidableEq, Repr

structure QueryPacketCommitmentRequest where
  port_id    : String
  channel_id : String
  sequence   : Nat
deriving DecidableEq, Repr

structure QueryPacketCommitmentResponse where
deriving DecidableEq, Repr

structure QueryPacketReceiptRequest where
  port_id    : String
  channel_id : String
  sequence   : Nat
deriving DecidableEq, Repr

structure QueryPacketReceiptResponse where
deriving DecidableEq, Repr

structure QueryPacketAcknowledgementRequest where
  port_id    : String
  channel_id : String
  sequence   : Nat
deriving DecidableEq, Repr

structure QueryPacketAcknowledgementResponse where
deriving DecidableEq, Repr

structure QueryNextSequenceReceiveRequest where
  port_id    : String
  channel_id : String
deriving DecidableEq, Repr

structure QueryNextSequenceReceiveResponse where
deriving DecidableEq, Repr

structure MsgUpdateClient where
  client_id : String
deriving DecidableEq, Repr

structure MsgUpdateClientResponse where
deriving DecidableEq, Repr

structure MsgUpgradeClient where
  client_id : String
deriving DecidableEq, Repr

structure MsgUpgradeClientResponse where
deriving DecidableEq, Repr

structure MsgSubmitMisbehaviour where
  client_id : String
deriving DecidableEq, Repr

structure MsgSubmitMisbehaviourResponse where
deriving DecidableEq, Repr

/-! ## IbcClientService (grpc.rs, impl ClientQuery) -/

namespace IbcClientService

/-- client_state (grpc.rs lines 132-137): declared, unimplemented. -/
def client_state (_request : QueryClientStateRequest) : Res QueryClientStateResponse :=
  .fatal "not implemented"

/-- Closure client_state_paths in client_states (grpc.rs lines
150-155): keep a scanned key only when it decodes to the ClientState
variant, otherwise drop it. -/
def client_state_paths (p : RawPath) : Option ClientStatePath :=
  match tryIntoIbcPath p with
  | .ok (.ClientState q) => some q
  | _ => none

/-- Body of the for loop of client_states (grpc.rs lines 163-174):
fetch each client state at Pending height; a store error is returned
as data_loss; a missing value hits client_state.unwrap() and panics. -/
def clientStatesScan (A : Adapter) : List ClientStatePath → Res (List IdentifiedClientState)
  | [] => .ok []
  | q :: rest =>
    match Adapter.get_client_state A StoreHeight.pending q with
    | .error e => .err (.dataLoss e)
    | .ok none => .fatal "called Option::unwrap() on a None value"
    | .ok (some cs) =>
      match clientStatesScan A rest with
      | .ok l => .ok ({ client_id := q.client_id, client_state := some cs } :: l)
      | .err s => .err s
      | .fatal m => .fatal m

/-- client_states (grpc.rs lines 139-180): scan the "clients" prefix,
keep the keys decoding to ClientState, fetch each at Pending. -/
def client_states (A : Adapter) (_request : QueryClientStatesRequest) :
    Res QueryClientStatesResponse :=
  match Adapter.get_paths_by_pfx A "clients" with
  | .error e => .err (.internal e)
  | .ok keys =>
    match clientStatesScan A (keys.filterMap client_state_paths) with
    | .ok l => .ok { client_states := l, pagination := none }
    | .err s => .err s
    | .fatal m => .fatal m

/-- consensus_state (grpc.rs lines 182-187): declared, unimplemented. -/
def consensus_state (_request : QueryConsensusStateRequest) : Res QueryConsensusStateResponse :=
  .fatal "not implemented"

/-- Body of the for loop of consensus_states (grpc.rs lines 205-222):
a key decoding to ClientConsensusState is fetched at Pending height
(store error is data_loss, the per-entry height echoes the path
epoch and height); any other key panics with "unexpected path". -/
def consensusStatesScan (A : Adapter) : List RawPath → Res (List ConsensusStateWithHeight)
  | [] => .ok []
  | p :: rest =>
    match tryIntoIbcPath p with
    | .ok (.ClientConsensusState q) =>
      match Adapter.get_consensus_state A StoreHeight.pending q with
      | .error e => .err (.dataLoss e)
      | .ok opt =>
        match consensusStatesScan A rest with
        | .ok l =>
          .ok ({ height := some { revision_number := q.epoch, revision_height := q.height },
                 consensus_state := opt } :: l)
        | .err s => .err s
        | .fatal m => .fatal m
    | _ => .fatal "unexpected path"

/-- consensus_states (grpc.rs lines 189-228): build the per-client
consensusStates prefix (an invalid client id makes the prefix string
fail to parse as a Path, reported as invalid_argument), scan it and
fetch every entry. -/
def consensus_states (A : Adapter) (request : QueryConsensusStatesRequest) :
    Res QueryConsensusStatesResponse :=
  if validIdentifier request.client_id then
    match Adapter.get_paths_by_pfx A ("clients/" ++ request.client_id ++ "/consensusStates") with
    | .error e => .err (.internal e)
    | .ok keys =>
      match consensusStatesScan A keys with
      | .ok l => .ok { consensus_states := l, pagination := none }
      | .err s => .err s
      | .fatal m => .fatal m
  else .err (.invalidArgument "invalid path")

/-- consensus_state_heights (grpc.rs lines 230-235): unimplemented. -/
def consensus_state_heights (_request : QueryConsensusStateHeightsRequest) :
    Res QueryConsensusStateHeightsResponse :=
  .fatal "not implemented"

/-- client_status (grpc.rs lines 237-242): unimplemented. -/
def client_status (_request : QueryClientStatusRequest) : Res QueryClientStatusResponse :=
  .fatal "not implemented"

/-- client_params (grpc.rs lines 244-249): unimplemented. -/
def client_params (_request : QueryClientParamsRequest) : Res QueryClientParamsResponse :=
  .fatal "not implemented"

/-- upgraded_client_state (grpc.rs lines 251-256): unimplemented. -/
def upgraded_client_state (_request : QueryUpgradedClientStateRequest) :
    Res QueryUpgradedClientStateResponse :=
  .fatal "not implemented"

/-- upgraded_consensus_state (grpc.rs lines 258-263): unimplemented. -/
def upgraded_consensus_state (_request : QueryUpgradedConsensusStateRequest) :
    Res QueryUpgradedConsensusStateResponse :=
  .fatal "not implemented"

end IbcClientService

/-! ## IbcConnectionService (grpc.rs, impl ConnectionQuery) -/

namespace IbcConnectionService

/-- connection (grpc.rs lines 282-298): parse the connection id, look
the connection end up at Pending height; a store error is data_loss;
absence is returned as a None connection, not an error. -/
def connection (A : Adapter) (request : QueryConnectionRequest) :
    Res QueryConnectionResponse :=
  if validIdentifier request.connection_id then
    match Adapter.get_connection_end A StoreHeight.pending
        { connection_id := request.connection_id } with
    | .error e => .err (.dataLoss e)
    | .ok conn =>
      .ok { connection := conn, proof := [], proof_height := none }
  else .err (.invalidArgument "invalid connection id")

/-- Body of the for loop of connections (grpc.rs lines 316-331): a key
decoding to Connections is fetched (store error is data_loss, a
missing value hits unwrap() and panics); any other key panics with
"unexpected path". -/
def connectionsScan (A : Adapter) : List RawPath → Res (List IdentifiedConnectionEnd)
  | [] => .ok []
  | p :: rest =>
    match tryIntoIbcPath p with
    | .ok (.Connections q) =>
      match Adapter.get_connection_end A StoreHeight.pending q with
      | .error e => .err (.dataLoss e)
      | .ok none => .fatal "called Option::unwrap() on a None value"
      | .ok (some ce) =>
        match connectionsScan A rest with
        | .ok l => .ok ({ connection_id := q.connection_id, connection_end := ce } :: l)
        | .err s => .err s
        | .fatal m => .fatal m
    | _ => .fatal "unexpected path"

/-- connections (grpc.rs lines 300-338): scan the "connections" prefix
and fetch every connection end; the response height field is None. -/
def connections (A : Adapter) (_request : QueryConnectionsRequest) :
    Res QueryConnectionsResponse :=
  match Adapter.get_paths_by_pfx A "connections" with
  | .error e => .err (.internal e)
  | .ok keys =>
    match connectionsScan A keys with
    | .ok l => .ok { connections := l, pagination := none, height := none }
    | .err s => .err s
    | .fatal m => .fatal m

/-- client_connections (grpc.rs lines 340-364): parse the client id,
read the reverse client-to-connections index at Pending height, and
substitute the empty list when the read fails (unwrap_or_default). -/
def client_connections (A : Adapter) (request : QueryClientConnectionsRequest) :
    Res QueryClientConnectionsResponse :=
  if validIdentifier request.client_id then
    let connection_ids :=
      match Adapter.get_connection_ids A StoreHeight.pending
          { client_id := request.client_id } with
      | .ok v => v
      | .error _ => []
    .ok { connection_paths := connection_ids, proof := [], proof_height := none }
  else .err (.invalidArgument "invalid client id")

/-- connection_client_state (grpc.rs lines 366-371): todo, unbuilt. -/
def connection_client_state (_request : QueryConnectionClientStateRequest) :
    Res QueryConnectionClientStateResponse :=
  .fatal "not yet implemented"

/-- connection_consensus_state (grpc.rs lines 373-378): todo, unbuilt. -/
def connection_consensus_state (_request : QueryConnectionConsensusStateRequest) :
    Res QueryConnectionConsensusStateResponse :=
  .fatal "not yet implemented"

end IbcConnectionService

/-! ## IbcChannelService (grpc.rs, impl ChannelQuery) -/

namespace IbcChannelService

/-- channel (grpc.rs lines 401-423): parse port and channel ids, look
the channel end up at Pending height; a store error is data_loss;
absence is returned as a None channel. -/
def channel (A : Adapter) (request : QueryChannelRequest) : Res QueryChannelResponse :=
  if validIdentifier request.port_id then
    if validIdentifier request.channel_id then
      match Adapter.get_channel_end A StoreHeight.pending
          { port_id := request.port_id, channel_id := request.channel_id } with
      | .error e => .err (.dataLoss e)
      | .ok opt => .ok { channel := opt, proof := [], proof_height := none }
    else .err (.invalidArgument "invalid channel id")
  else .err (.invalidArgument "invalid port id")

/-- Body of the for loop of channels (grpc.rs lines 440-456): a key
decoding to ChannelEnds is fetched (store error is data_loss, a
missing value hits the expect() and panics); any other key panics
with "unexpected path". -/
def channelsScan (A : Adapter) : List RawPath → Res (List IdentifiedChannelEnd)
  | [] => .ok []
  | p :: rest =>
    match tryIntoIbcPath p with
    | .ok (.ChannelEnds q) =>
      match Adapter.get_channel_end A StoreHeight.pending q with
      | .error e => .err (.dataLoss e)
      | .ok none => .fatal "channel path returned by get_keys() had no associated channel"
      | .ok (some ce) =>
        match channelsScan A rest with
        | .ok l =>
          .ok ({ port_id := q.port_id, channel_id := q.channel_id, channel_end := ce } :: l)
        | .err s => .err s
        | .fatal m => .fatal m
    | _ => .fatal "unexpected path"

/-- channels (grpc.rs lines 426-466): scan the "channelEnds/ports"
prefix, fetch every channel end, and report the current height under
CHAIN_REVISION_NUMBER. -/
def channels (A : Adapter) (_request : QueryChannelsRequest) : Res QueryChannelsResponse :=
  match Adapter.get_paths_by_pfx A "channelEnds/ports" with
  | .error e => .err (.internal e)
  | .ok keys =>
    match channelsScan A keys with
    | .ok l =>
      .ok { channels := l, pagination := none,
            height := some { revision_number := CHAIN_REVISION_NUMBER,
                             revision_height := A.current_height } }
    | .err s => .err s
    | .fatal m => .fatal m

/-- Body of the for loop of connection_channels (grpc.rs lines
488-502): keys not decoding to ChannelEnds are skipped; a fetched
channel end that is absent is skipped; a fetch error is data_loss; a
present channel end is kept when its first connection hop equals the
requested connection id. -/
def connectionChannelsScan (A : Adapter) (conn_id : String) :
    List RawPath → Res (List IdentifiedChannelEnd)
  | [] => .ok []
  | p :: rest =>
    match tryIntoIbcPath p with
    | .ok (.ChannelEnds q) =>
      match Adapter.get_channel_end A StoreHeight.pending q with
      | .error e => .err (.dataLoss e)
      | .ok none => connectionChannelsScan A conn_id rest
      | .ok (some ce) =>
        if ce.connection_hops.head? = some conn_id then
          match connectionChannelsScan A conn_id rest with
          | .ok l =>
            .ok ({ port_id := q.port_id, channel_id := q.channel_id, channel_end := ce } :: l)
          | .err s => .err s
          | .fatal m => .fatal m
        else connectionChannelsScan A conn_id rest
    | _ => connectionChannelsScan A conn_id rest

/-- connection_channels (grpc.rs lines 470-512): parse the connection
id, scan the "channelEnds" prefix, keep channels whose first hop is
the requested connection, and report the current height. -/
def connection_channels (A : Adapter) (request : QueryConnectionChannelsRequest) :
    Res QueryConnectionChannelsResponse :=
  if validIdentifier request.connection then
    match Adapter.get_paths_by_pfx A "channelEnds" with
    | .error e => .err (.internal e)
    | .ok keys =>
      match connectionChannelsScan A request.connection keys with
      | .ok l =>
        .ok { channels := l, pagination := none,
              height := some { revision_number := CHAIN_REVISION_NUMBER,
                               revision_height := A.current_height } }
      | .err s => .err s
      | .fatal m => .fatal m
  else .err (.invalidArgument "invalid connection id")

/-- channel_client_state (grpc.rs lines 516-521): todo, unbuilt. -/
def channel_client_state (_request : QueryChannelClientStateRequest) :
    Res QueryChannelClientStateResponse :=
  .fatal "not yet implemented"

/-- channel_consensus_state (grpc.rs lines 525-530): todo, unbuilt. -/
def channel_consensus_state (_request : QueryChannelConsensusStateRequest) :
    Res QueryChannelConsensusStateResponse :=
  .fatal "not yet implemented"

/-- packet_commitment single lookup (grpc.rs lines 532-537): todo. -/
def packet_commitment (_request : QueryPacketCommitmentRequest) :
    Res QueryPacketCommitmentResponse :=
  .fatal "not yet implemented"

/-- Closure matching_commitment_paths in packet_commitments (grpc.rs
lines 560-569): keep a scanned key only when it decodes to the
Commitments variant for the requested port and channel. -/
def matching_commitment_paths (port_id channel_id : String) (p : RawPath) :
    Option CommitmentsPath :=
  match tryIntoIbcPath p with
  | .ok (.Commitments q) =>
    if q.port_id = port_id ∧ q.channel_id = channel_id then some q else none
  | _ => none

/-- Body of the for loop of packet_commitments (grpc.rs lines
573-591): fetch each matching commitment at Pending height (store
error is data_loss, a missing value hits unwrap() and panics) and
keep it only when its bytes are nonempty. -/
def packetCommitmentsScan (A : Adapter) : List CommitmentsPath → Res (List PacketState)
  | [] => .ok []
  | q :: rest =>
    match Adapter.get_packet_commitment A StoreHeight.pending q with
    | .error e => .err (.dataLoss e)
    | .ok none => .fatal "called Option::unwrap() on a None value"
    | .ok (some data) =>
      match packetCommitmentsScan A rest with
      | .ok l =>
        .ok (if data.isEmpty then l
             else { port_id := q.port_id, channel_id := q.channel_id,
                    sequence := q.sequence, data := data } :: l)
      | .err s => .err s
      | .fatal m => .fatal m

/-- packet_commitments (grpc.rs lines 541-601): parse port and channel
ids, scan the "commitments/ports" prefix, keep matching keys, fetch
each commitment, drop empty bytes, and report the current height. -/
def packet_commitments (A : Adapter) (request : QueryPacketCommitmentsRequest) :
    Res QueryPacketCommitmentsResponse :=
  if validIdentifier request.port_id then
    if validIdentifier request.channel_id then
      match Adapter.get_paths_by_pfx A "commitments/ports" with
      | .error e => .err (.internal e)
      | .ok keys =>
        match packetCommitmentsScan A
            (keys.filterMap (matching_commitment_paths request.port_id request.channel_id)) with
        | .ok l =>
          .ok { commitments := l, pagination := none,
                height := some { revision_number := CHAIN_REVISION_NUMBER,
                                 revision_height := A.current_height } }
        | .err s => .err s
        | .fatal m => .fatal m
    else .err (.invalidArgument "invalid channel id")
  else .err (.invalidArgument "invalid port id")

/-- packet_receipt (grpc.rs lines 605-610): todo, unbuilt. -/
def packet_receipt (_request : QueryPacketReceiptRequest) : Res QueryPacketReceiptResponse :=
  .fatal "not yet implemented"

/-- packet_acknowledgement single lookup (grpc.rs lines 612-617):
todo, unbuilt. -/
def packet_acknowledgement (_request : QueryPacketAcknowledgementRequest) :
    Res QueryPacketAcknowledgementResponse :=
  .fatal "not yet implemented"

/-- Closure matching_ack_paths in packet_acknowledgements (grpc.rs
lines 640-647): keep a scanned key only when it decodes to the Acks
variant for the requested port and channel. -/
def matching_ack_paths (port_id channel_id : String) (p : RawPath) : Option AcksPath :=
  match tryIntoIbcPath p with
  | .ok (.Acks q) =>
    if q.port_id = port_id ∧ q.channel_id = channel_id then some q else none
  | _ => none

/-- Body of the for loop of packet_acknowledgements (grpc.rs lines
651-668): fetch each matching acknowledgement at Pending height
(store error is data_loss, an absent value is skipped) and keep it
only when its bytes are nonempty. -/
def packetAcksScan (A : Adapter) : List AcksPath → Res (List PacketState)
  | [] => .ok []
  | q :: rest =>
    match Adapter.get_acknowledgement_commitment A StoreHeight.pending q with
    | .error e => .err (.dataLoss e)
    | .ok none => packetAcksScan A rest
    | .ok (some data) =>
      match packetAcksScan A rest with
      | .ok l =>
        .ok (if data.isEmpty then l
             else { port_id := q.port_id, channel_id := q.channel_id,
                    sequence := q.sequence, data := data } :: l)
      | .err s => .err s
      | .fatal m => .fatal m

/-- packet_acknowledgements (grpc.rs lines 621-678): parse port and
channel ids, scan the "acks/ports" prefix, keep matching keys, fetch
each acknowledgement, drop empty bytes, and report the current
height. -/
def packet_acknowledgements (A : Adapter) (request : QueryPacketAcknowledgementsRequest) :
    Res QueryPacketAcknowledgementsResponse :=
  if validIdentifier request.port_id then
    if validIdentifier request.channel_id then
      match Adapter.get_paths_by_pfx A "acks/ports" with
      | .error e => .err (.internal e)
      | .ok keys =>
        match packetAcksScan A
            (keys.filterMap (matching_ack_paths request.port_id request.channel_id)) with
        | .ok l =>
          .ok { acknowledgements := l, pagination := none,
                height := some { revision_number := CHAIN_REVISION_NUMBER,
                                 revision_height := A.current_height } }
        | .err s => .err s
        | .fatal m => .fatal m
    else .err (.invalidArgument "invalid channel id")
  else .err (.invalidArgument "invalid port id")

/-- Filter predicate of unreceived_packets (grpc.rs lines 697-711): a
candidate sequence is kept when the receipt lookup at Pending height
yields no receipt, where a store error is flattened into absence
(ok().flatten().is_none()). -/
def packetReceiptAbsent (A : Adapter) (port_id channel_id : String) (seq : Nat) : Bool :=
  match Adapter.get_opt_receipt A StoreHeight.pending
      { port_id := port_id, channel_id := channel_id, sequence := seq } with
  | .ok (some _) => false
  | _ => true

/-- unreceived_packets (grpc.rs lines 686-721): parse port and channel
ids and keep exactly the candidate sequences with no receipt marker
at Pending height. -/
def unreceived_packets (A : Adapter) (request : QueryUnreceivedPacketsRequest) :
    Res QueryUnreceivedPacketsResponse :=
  if validIdentifier request.port_id then
    if validIdentifier request.channel_id then
      .ok { sequences := request.packet_commitment_sequences.filter
              (packetReceiptAbsent A request.port_id request.channel_id),
            height := some { revision_number := CHAIN_REVISION_NUMBER,
                             revision_height := A.current_height } }
    else .err (.invalidArgument "invalid channel id")
  else .err (.invalidArgument "invalid port id")

/-- Filter predicate of unreceived_acks (grpc.rs lines 736-753): a
candidate sequence is kept when its packet commitment still exists at
Pending height, where a store error is flattened into absence
(ok().flatten().is_some()). -/
def packetCommitmentStillThere (A : Adapter) (port_id channel_id : String) (seq : Nat) : Bool :=
  match Adapter.get_packet_commitment A StoreHeight.pending
      { port_id := port_id, channel_id := channel_id, sequence := seq } with
  | .ok (some _) => true
  | _ => false

/-- unreceived_acks (grpc.rs lines 725-763): parse port and channel
ids and keep exactly the candidate sequences whose packet commitment
still exists at Pending height. -/
def unreceived_acks (A : Adapter) (request : QueryUnreceivedAcksRequest) :
    Res QueryUnreceivedAcksResponse :=
  if validIdentifier request.port_id then
    if validIdentifier request.channel_id then
      .ok { sequences := request.packet_ack_sequences.filter
              (packetCommitmentStillThere A request.port_id request.channel_id),
            height := some { revision_number := CHAIN_REVISION_NUMBER,
                             revision_height := A.current_height } }
    else .err (.invalidArgument "invalid channel id")
  else .err (.invalidArgument "invalid port id")

/-- next_sequence_receive (grpc.rs lines 767-772): todo, unbuilt. -/
def next_sequence_receive (_request : QueryNextSequenceReceiveRequest) :
    Res QueryNextSequenceReceiveResponse :=
  .fatal "not yet implemented"

end IbcChannelService

/-! ## Host Context (IbcImpl in lib.rs) and the client message service -/

/-- MsgCreateAnyClient, the decoded client-creation message: an
embedded client state and an initial consensus state. -/
structure MsgCreateAnyClient where
  client_state    : AnyClientState
  consensus_state : AnyConsensusState
deriving DecidableEq, Repr

/-- MsgCreateClientResponse (ibc_proto): the response schema is an
empty message carrying no fields at all. -/
structure MsgCreateClientResponse where
deriving DecidableEq, Repr

/-- Protocol events emitted by the message service. -/
inductive IbcEvent where
  | CreateClient (client_id : ClientId)
deriving DecidableEq, Repr

/-- State of IbcImpl (lib.rs lines 56-66) together with the records
its keepers persist through the adapter: the u64 client counter, the
per-client stored records, and the host height and timestamp the
adapter reports. -/
structure CtxState where
  client_counter   : Nat
  client_types     : List (ClientId × String)
  client_states    : List (ClientId × AnyClientState)
  consensus_states : List (ClientId × AnyConsensusState)
  current_height   : Nat
  host_timestamp   : Nat
deriving DecidableEq, Repr

/-- Insert or replace a binding in an association list. -/
def setKV {κ α : Type} [DecidableEq κ] (k : κ) (v : α) (l : List (κ × α)) : List (κ × α) :=
  (k, v) :: l.filter (fun e => ¬(e.1 = k))

/-- Remove a binding from an association list. -/
def eraseKV {κ α : Type} [DecidableEq κ] (k : κ) (l : List (κ × α)) : List (κ × α) :=
  l.filter (fun e => ¬(e.1 = k))

/-- Look a binding up in an association list. -/
def lookupKV {κ α : Type} [DecidableEq κ] (k : κ) (l : List (κ × α)) : Option α :=
  (l.find? (fun e => decide (e.1 = k))).map (fun e => e.2)

/-- host_height (lib.rs lines 125-128): Height::new(0, current). -/
def host_height (st : CtxState) : Height :=
  { revision_number := 0, revision_height := st.current_height }

/-- increase_client_counter (lib.rs lines 186-188): a u64 increment
of the in-memory counter (wrapping at 2 to the 64th). -/
def increase_client_counter (st : CtxState) : CtxState :=
  { st with client_counter := (st.client_counter + 1) % u64Mod }

/-- The id the create_client handler allocates (grpc.rs lines
801-806): ClientId::new(client_type, id_counter) built from the
message client type and the current counter. -/
def allocatedClientId (st : CtxState) (msg : MsgCreateAnyClient) : ClientId :=
  { client_type := msg.client_state.client_type, counter := st.client_counter }

/-- Modelled from the spec: ClientKeeper::store_client_result for a
Create result (provided by the external ibc crate, not under src/):
persist the client type, client state and initial consensus state
under the new client id, then increment the client counter by one;
the pure model store cannot fail. -/
def store_client_result (st : CtxState) (client_id : ClientId)
    (msg : MsgCreateAnyClient) : Except String CtxState :=
  .ok (increase_client_counter
    { st with
      client_types := setKV client_id msg.client_state.client_type st.client_types,
      client_states := setKV client_id msg.client_state st.client_states,
      consensus_states := setKV client_id msg.consensus_state st.consensus_states })

/-- create_client (grpc.rs lines 790-835): read the counter, allocate
ClientId::new(client_type, id_counter), emit a CreateClient event
carrying the new id into the local HandlerOutputBuilder, and apply
the Create result to the context.  The second component of the
returned triple models the local output builder, which the source
constructs and then drops; only the third component (the empty
MsgCreateClientResponse, or a Status) is returned to the caller. -/
def create_client (st : CtxState) (msg : MsgCreateAnyClient) :
    CtxState × List IbcEvent × Except Status MsgCreateClientResponse :=
  let client_id := allocatedClientId st msg
  let output_events := [IbcEvent.CreateClient client_id]
  match store_client_result st client_id msg with
  | .ok st2 => (st2, output_events, .ok {})
  | .error _ => (st, output_events, .error (.invalidArgument "store_client_result"))

/-- update_client (grpc.rs lines 838-843): declared, unimplemented. -/
def update_client (_request : MsgUpdateClient) : Res MsgUpdateClientResponse :=
  .fatal "not implemented"

/-- upgrade_client (grpc.rs lines 846-851): declared, unimplemented. -/
def upgrade_client (_request : MsgUpgradeClient) : Res MsgUpgradeClientResponse :=
  .fatal "not implemented"

/-- submit_misbehaviour (grpc.rs lines 853-858): unimplemented. -/
def submit_misbehaviour (_request : MsgSubmitMisbehaviour) : Res MsgSubmitMisbehaviourResponse :=
  .fatal "not implemented"

/-- Run a sequence of client-creation calls, threading the context
state and collecting the id allocated by each successful call. -/
def runCreations : CtxState → List MsgCreateAnyClient → CtxState × List ClientId
  | st, [] => (st, [])
  | st, m :: ms =>
    match create_client st m with
    | (st2, _, .ok _) =>
      let r := runCreations st2 ms
      (r.1, allocatedClientId st m :: r.2)
    | (st2, _, .error _) => runCreations st2 ms

/-! ## Channel keeper writes (lib.rs, impl ChannelKeeper) over the
mock store

Modelled from the spec: the adapter implementation behind the typed
setters (src/core/ibc/src/adapter, not under src/) is a
path-addressed key/value store; its Pending view is an association
list per record kind, and prefix enumeration lists exactly the
stored keys of that kind. -/

/-- Key of a packet record: (PortId, ChannelId, Sequence). -/
abbrev PacketKey := String × String × Nat

/-- Pending view of the commitment store that the channel keeper
writes and the channel queries read. -/
structure StoreState where
  commitments : List (PacketKey × List Nat)
  acks        : List (PacketKey × List Nat)
  receipts    : List (PacketKey × Unit)
  height      : Nat
deriving DecidableEq, Repr

/-- store_packet_commitment (lib.rs lines 301-311): persist the
commitment bytes under (port, channel, sequence). -/
def store_packet_commitment (key : PacketKey) (commitment : List Nat)
    (S : StoreState) : StoreState :=
  { S with commitments := setKV key commitment S.commitments }

/-- delete_packet_commitment (lib.rs lines 313-322): a physical
delete of the commitment record. -/
def delete_packet_commitment (key : PacketKey) (S : StoreState) : StoreState :=
  { S with commitments := eraseKV key S.commitments }

/-- store_packet_receipt (lib.rs lines 324-334): persist the receipt
marker under (port, channel, sequence). -/
def store_packet_receipt (key : PacketKey) (S : StoreState) : StoreState :=
  { S with receipts := setKV key () S.receipts }

/-- store_packet_acknowledgement (lib.rs lines 336-346): persist the
acknowledgement bytes under (port, channel, sequence). -/
def store_packet_acknowledgement (key : PacketKey) (ack : List Nat)
    (S : StoreState) : StoreState :=
  { S with acks := setKV key ack S.acks }

/-- delete_packet_acknowledgement (lib.rs lines 348-353): implemented
as store_packet_acknowledgement of the empty byte vector, not as a
physical delete. -/
def delete_packet_acknowledgement (key : PacketKey) (S : StoreState) : StoreState :=
  store_packet_acknowledgement key [] S

/-- The stored key of a commitment record, as the raw path the store
enumerates for it. -/
def commitPathOf (e : PacketKey × List Nat) : RawPath :=
  .valid (.Commitments { port_id := e.1.1, channel_id := e.1.2.1, sequence := e.1.2.2 })

/-- The stored key of an acknowledgement record, as the raw path the
store enumerates for it. -/
def ackPathOf (e : PacketKey × List Nat) : RawPath :=
  .valid (.Acks { port_id := e.1.1, channel_id := e.1.2.1, sequence := e.1.2.2 })

/-- The adapter view of a mock store: prefix enumeration lists the
stored keys of the matching record kind, every point lookup succeeds
and returns the stored value, and the current height is the store
height. -/
def storeAdapter (S : StoreState) : Adapter where
  get_paths_by_pfx := fun pfx =>
    if pfx = "commitments/ports" then .ok (S.commitments.map commitPathOf)
    else if pfx = "acks/ports" then .ok (S.acks.map ackPathOf)
    else .ok []
  get_client_state := fun _ _ => .ok none
  get_consensus_state := fun _ _ => .ok none
  get_connection_end := fun _ _ => .ok none
  get_connection_ids := fun _ _ => .ok []
  get_channel_end := fun _ _ => .ok none
  get_packet_commitment := fun _ q =>
    .ok (lookupKV (q.port_id, q.channel_id, q.sequence) S.commitments)
  get_acknowledgement_commitment := fun _ q =>
    .ok (lookupKV (q.port_id, q.channel_id, q.sequence) S.acks)
  get_opt_receipt := fun _ q =>
    .ok (lookupKV (q.port_id, q.channel_id, q.sequence) S.receipts)
  current_height := S.height

/-! ## Concrete states and adapters used by witnesses and
counterexamples -/

/-- An adapter over an empty store: every scan is empty, every lookup
finds nothing, the chain is at height 7. -/
def emptyAdapter : Adapter where
  get_paths_by_pfx := fun _ => .ok []
  get_client_state := fun _ _ => .ok none
  get_consensus_state := fun _ _ => .ok none
  get_connection_end := fun _ _ => .ok none
  get_connection_ids := fun _ _ => .ok []
  get_channel_end := fun _ _ => .ok none
  get_packet_commitment := fun _ _ => .ok none
  get_acknowledgement_commitment := fun _ _ => .ok none
  get_opt_receipt := fun _ _ => .ok none
  current_height := 7

/-- An adapter whose prefix scans list exactly the one given key and
whose every point read fails with a store error. -/
def failAdapter (p : RawPath) : Adapter where
  get_paths_by_pfx := fun _ => .ok [p]
  get_client_state := fun _ _ => .error "store read failure"
  get_consensus_state := fun _ _ => .error "store read failure"
  get_connection_end := fun _ _ => .error "store read failure"
  get_connection_ids := fun _ _ => .error "store read failure"
  get_channel_end := fun _ _ => .error "store read failure"
  get_packet_commitment := fun _ _ => .error "store read failure"
  get_acknowledgement_commitment := fun _ _ => .error "store read failure"
  get_opt_receipt := fun _ _ => .error "store read failure"
  current_height := 7

/-- An adapter on which prefix enumeration itself fails. -/
def scanFailAdapter : Adapter :=
  { emptyAdapter with get_paths_by_pfx := fun _ => .error "store read failure" }

/-- An adapter whose prefix scans list exactly the one given key but
whose every point read finds no value. -/
def noneAdapter (p : RawPath) : Adapter where
  get_paths_by_pfx := fun _ => .ok [p]
  get_client_state := fun _ _ => .ok none
  get_consensus_state := fun _ _ => .ok none
  get_connection_end := fun _ _ => .ok none
  get_connection_ids := fun _ _ => .ok []
  get_channel_end := fun _ _ => .ok none
  get_packet_commitment := fun _ _ => .ok none
  get_acknowledgement_commitment := fun _ _ => .ok none
  get_opt_receipt := fun _ _ => .ok none
  current_height := 7

/-- An adapter on which only the client-to-connections index read
fails; everything else reads as an empty store. -/
def connIdsFailAdapter : Adapter :=
  { emptyAdapter with get_connection_ids := fun _ _ => .error "store read failure" }

/-- An adapter holding one recorded consensus state whose path epoch
is 5, i.e. a consensus state of a counterparty chain at revision 5. -/
def epochAdapter : Adapter :=
  { emptyAdapter with
    get_paths_by_pfx := fun _ =>
      .ok [.valid (.ClientConsensusState { client_id := "c0", epoch := 5, height := 10 })],
    get_consensus_state := fun _ _ => .ok (some { payload := [1] }) }

/-- A concrete host context: counter 0, nothing stored, height 3. -/
def sampleCtx : CtxState :=
  { client_counter := 0, client_types := [], client_states := [],
    consensus_states := [], current_height := 3, host_timestamp := 11 }

/-- A concrete client-creation message with client type "T". -/
def sampleMsgT : MsgCreateAnyClient :=
  { client_state := { client_type := "T", payload := [1] },
    consensus_state := { payload := [2] } }

/-- A concrete client-creation message with client type "U". -/
def sampleMsgU : MsgCreateAnyClient :=
  { client_state := { client_type := "U", payload := [5] },
    consensus_state := { payload := [6] } }

/-- A concrete store: two commitments (one already tombstoned with
empty bytes), two acknowledgements on different channels, one
receipt. -/
def sampleStore : StoreState :=
  { commitments := [(("p", "c", 5), [1, 2]), (("p", "c", 7), [])],
    acks := [(("p", "c", 5), [3]), (("p", "d", 5), [9])],
    receipts := [(("p", "c", 4), ())],
    height := 9 }

/-- The acknowledgement entry the PacketAcknowledgements query
surfaces for one matching key of a mock store: the stored bytes when
they are present and nonempty, nothing otherwise. -/
def ackEntryOf (S : StoreState) (q : AcksPath) : Option PacketState :=
  match lookupKV (q.port_id, q.channel_id, q.sequence) S.acks with
  | none => none
  | some d =>
    if d.isEmpty then none
    else some { port_id := q.port_id, channel_id := q.channel_id,
                sequence := q.sequence, data := d }

/-- The commitment entry the PacketCommitments query surfaces for one
matching key of a mock store. -/
def commitEntryOf (S : StoreState) (q : CommitmentsPath) : Option PacketState :=
  match lookupKV (q.port_id, q.channel_id, q.sequence) S.commitments with
  | none => none
  | some d =>
    if d.isEmpty then none
    else some { port_id := q.port_id, channel_id := q.channel_id,
                sequence := q.sequence, data := d }

/-! ## Association list lemmas -/

theorem lookupKV_setKV_self {κ α : Type} [DecidableEq κ] (k : κ) (v : α) (l : List (κ × α)) :
    lookupKV k (setKV k v l) = some v := by
  simp [lookupKV, setKV, List.find?_cons]

theorem lookupKV_eraseKV_self {κ α : Type} [DecidableEq κ] (k : κ) (l : List (κ × α)) :
    lookupKV k (eraseKV k l) = none := by
  have hf : List.find? (fun e => decide (e.1 = k))
      (List.filter (fun e => decide ¬(e.1 = k)) l) = none := by
    rw [List.find?_eq_none]
    intro e he
    rcases List.mem_filter.mp he with ⟨_, hne⟩
    simpa using hne
  simp [lookupKV, eraseKV, hf]

theorem lookupKV_eq_some_mem {κ α : Type} [DecidableEq κ] {k : κ} {v : α}
    {l : List (κ × α)} (h : lookupKV k l = some v) : (k, v) ∈ l := by
  unfold lookupKV at h
  cases hf : List.find? (fun e => decide (e.1 = k)) l with
  | none => rw [hf] at h; cases h
  | some e =>
    rw [hf] at h
    have hk0 := List.find?_some hf
    have hk : e.1 = k := by simpa using hk0
    have hmem := List.mem_of_find?_eq_some hf
    have hev : e.2 = v := by simpa using h
    have : (k, v) = e := by
      cases e
      simp_all
    rw [this]
    exact hmem

theorem lookupKV_isSome_of_key_mem {κ α : Type} [DecidableEq κ] {k : κ}
    {l : List (κ × α)} (h : k ∈ l.map Prod.fst) : (lookupKV k l).isSome = true := by
  induction l with
  | nil => cases h
  | cons e rest ih =>
    by_cases he : e.1 = k
    · simp [lookupKV, List.find?_cons, he]
    · have hk : k ∈ rest.map Prod.fst := by
        rcases List.mem_map.mp h with ⟨x, hx, hxk⟩
        rcases List.mem_cons.mp hx with h1 | h2
        · exact absurd (h1 ▸ hxk) he
        · exact List.mem_map.mpr ⟨x, h2, hxk⟩
      simpa [lookupKV, List.find?_cons, he] using ih hk

/-! ## Mock-store views of the channel queries -/

theorem commitmentStillThere_store (S : StoreState) (port chan : String) :
    IbcChannelService.packetCommitmentStillThere (storeAdapter S) port chan =
      fun n => (lookupKV (port, chan, n) S.commitments).isSome := by
  funext n
  cases h : lookupKV (port, chan, n) S.commitments <;>
    simp [IbcChannelService.packetCommitmentStillThere, storeAdapter, h]

theorem receiptAbsent_store (S : StoreState) (port chan : String) :
    IbcChannelService.packetReceiptAbsent (storeAdapter S) port chan =
      fun n => !(lookupKV (port, chan, n) S.receipts).isSome := by
  funext n
  cases h : lookupKV (port, chan, n) S.receipts <;>
    simp [IbcChannelService.packetReceiptAbsent, storeAdapter, h]

theorem unreceived_acks_store (S : StoreState) (port chan : String) (seqs : List Nat)
    (hp : validIdentifier port = true) (hc : validIdentifier chan = true) :
    IbcChannelService.unreceived_acks (storeAdapter S)
        { port_id := port, channel_id := chan, packet_ack_sequences := seqs } =
      .ok { sequences := seqs.filter (fun n => (lookupKV (port, chan, n) S.commitments).isSome),
            height := some { revision_number := CHAIN_REVISION_NUMBER,
                             revision_height := S.height } } := by
  simp only [IbcChannelService.unreceived_acks, hp, hc, if_true, commitmentStillThere_store]
  rfl

theorem unreceived_packets_store (S : StoreState) (port chan : String) (seqs : List Nat)
    (hp : validIdentifier port = true) (hc : validIdentifier chan = true) :
    IbcChannelService.unreceived_packets (storeAdapter S)
        { port_id := port, channel_id := chan, packet_commitment_sequences := seqs } =
      .ok { sequences := seqs.filter (fun n => !(lookupKV (port, chan, n) S.receipts).isSome),
            height := some { revision_number := CHAIN_REVISION_NUMBER,
                             revision_height := S.height } } := by
  simp only [IbcChannelService.unreceived_packets, hp, hc, if_true, receiptAbsent_store]
  rfl

theorem storeAdapter_get_ack (S : StoreState) (h : StoreHeight) (q : AcksPath) :
    Adapter.get_acknowledgement_commitment (storeAdapter S) h q =
      .ok (lookupKV (q.port_id, q.channel_id, q.sequence) S.acks) := rfl

theorem storeAdapter_get_commit (S : StoreState) (h : StoreHeight) (q : CommitmentsPath) :
    Adapter.get_packet_commitment (storeAdapter S) h q =
      .ok (lookupKV (q.port_id, q.channel_id, q.sequence) S.commitments) := rfl

theorem packetAcksScan_store (S : StoreState) (qs : List AcksPath) :
    IbcChannelService.packetAcksScan (storeAdapter S) qs =
      .ok (qs.filterMap (ackEntryOf S)) := by
  induction qs with
  | nil => rfl
  | cons q rest ih =>
    cases h : lookupKV (q.port_id, q.channel_id, q.sequence) S.acks with
    | none =>
      simp [IbcChannelService.packetAcksScan, storeAdapter_get_ack, ackEntryOf, h, ih,
        List.filterMap_cons]
    | some d =>
      by_cases hd : d.isEmpty <;>
        simp [IbcChannelService.packetAcksScan, storeAdapter_get_ack, ackEntryOf, h, hd, ih,
          List.filterMap_cons]

theorem packetCommitmentsScan_store (S : StoreState) (qs : List CommitmentsPath)
    (hq : ∀ q ∈ qs, (lookupKV (q.port_id, q.channel_id, q.sequence) S.commitments).isSome
      = true) :
    IbcChannelService.packetCommitmentsScan (storeAdapter S) qs =
      .ok (qs.filterMap (commitEntryOf S)) := by
  induction qs with
  | nil => rfl
  | cons q rest ih =>
    have hsome := hq q (List.mem_cons_self q rest)
    cases h : lookupKV (q.port_id, q.channel_id, q.sequence) S.commitments with
    | none => rw [h] at hsome; cases hsome
    | some d =>
      have ih2 := ih (fun p hp => hq p (List.mem_cons_of_mem q hp))
      by_cases hd : d.isEmpty <;>
        simp [IbcChannelService.packetCommitmentsScan, storeAdapter_get_commit, commitEntryOf,
          h, hd, ih2, List.filterMap_cons]

theorem packet_acknowledgements_store (S : StoreState) (port chan : String)
    (hp : validIdentifier port = true) (hc : validIdentifier chan = true) :
    IbcChannelService.packet_acknowledgements (storeAdapter S)
        { port_id := port, channel_id := chan } =
      .ok { acknowledgements :=
              ((S.acks.map ackPathOf).filterMap
                  (IbcChannelService.matching_ack_paths port chan)).filterMap (ackEntryOf S),
            pagination := none,
            height := some { revision_number := CHAIN_REVISION_NUMBER,
                             revision_height := S.height } } := by
  have hkeys : Adapter.get_paths_by_pfx (storeAdapter S) "acks/ports" =
      .ok (S.acks.map ackPathOf) := by
    simp [storeAdapter]
  simp only [IbcChannelService.packet_acknowledgements, hp, hc, if_true, hkeys,
    packetAcksScan_store]
  rfl

theorem matched_commit_path_lookup (S : StoreState) (port chan : String)
    (q : CommitmentsPath)
    (hq : q ∈ (S.commitments.map commitPathOf).filterMap
      (IbcChannelService.matching_commitment_paths port chan)) :
    (lookupKV (q.port_id, q.channel_id, q.sequence) S.commitments).isSome = true := by
  rcases List.mem_filterMap.mp hq with ⟨p, hpmem, hm⟩
  rcases List.mem_map.mp hpmem with ⟨e, he, hep⟩
  subst hep
  unfold IbcChannelService.matching_commitment_paths at hm
  simp only [commitPathOf, tryIntoIbcPath] at hm
  split at hm
  · have hq2 : q = { port_id := e.1.1, channel_id := e.1.2.1, sequence := e.1.2.2 } := by
      cases hm; rfl
    subst hq2
    exact lookupKV_isSome_of_key_mem (List.mem_map.mpr ⟨e, he, rfl⟩)
  · cases hm

theorem packet_commitments_store (S : StoreState) (port chan : String)
    (hp : validIdentifier port = true) (hc : validIdentifier chan = true) :
    IbcChannelService.packet_commitments (storeAdapter S)
        { port_id := port, channel_id := chan } =
      .ok { commitments :=
              ((S.commitments.map commitPathOf).filterMap
                  (IbcChannelService.matching_commitment_paths port chan)).filterMap
                (commitEntryOf S),
            pagination := none,
            height := some { revision_number := CHAIN_REVISION_NUMBER,
                             revision_height := S.height } } := by
  have hkeys : Adapter.get_paths_by_pfx (storeAdapter S) "commitments/ports" =
      .ok (S.commitments.map commitPathOf) := by
    simp [storeAdapter]
  simp only [IbcChannelService.packet_commitments, hp, hc, if_true, hkeys,
    packetCommitmentsScan_store S _ (fun q hq => matched_commit_path_lookup S port chan q hq)]
  rfl

theorem packetAcksScan_data_ne_nil (A : Adapter) (qs : List AcksPath)
    (l : List PacketState) (h : IbcChannelService.packetAcksScan A qs = .ok l) :
    ∀ ps ∈ l, ps.data ≠ [] := by
  induction qs generalizing l with
  | nil =>
    unfold IbcChannelService.packetAcksScan at h
    cases h
    intro ps hps
    cases hps
  | cons q rest ih =>
    unfold IbcChannelService.packetAcksScan at h
    cases hg : Adapter.get_acknowledgement_commitment A StoreHeight.pending q with
    | error e => simp only [hg] at h; cases h
    | ok opt =>
      simp only [hg] at h
      cases opt with
      | none => exact ih l h
      | some d =>
        cases hs : IbcChannelService.packetAcksScan A rest with
        | err s => simp only [hs] at h; cases h
        | fatal m => simp only [hs] at h; cases h
        | ok l2 =>
          simp only [hs] at h
          by_cases hd : d.isEmpty = true
          · rw [if_pos hd] at h
            cases h
            exact ih _ hs
          · rw [if_neg hd] at h
            cases h
            intro ps hps
            rcases List.mem_cons.mp hps with h1 | h2
            · subst h1
              show d ≠ []
              intro hnil
              subst hnil
              simp at hd
            · exact ih _ hs ps h2

theorem packetCommitmentsScan_data_ne_nil (A : Adapter) (qs : List CommitmentsPath)
    (l : List PacketState) (h : IbcChannelService.packetCommitmentsScan A qs = .ok l) :
    ∀ ps ∈ l, ps.data ≠ [] := by
  induction qs generalizing l with
  | nil =>
    unfold IbcChannelService.packetCommitmentsScan at h
    cases h
    intro ps hps
    cases hps
  | cons q rest ih =>
    unfold IbcChannelService.packetCommitmentsScan at h
    cases hg : Adapter.get_packet_commitment A StoreHeight.pending q with
    | error e => simp only [hg] at h; cases h
    | ok opt =>
      simp only [hg] at h
      cases opt with
      | none => cases h
      | some d =>
        cases hs : IbcChannelService.packetCommitmentsScan A rest with
        | err s => simp only [hs] at h; cases h
        | fatal m => simp only [hs] at h; cases h
        | ok l2 =>
          simp only [hs] at h
          by_cases hd : d.isEmpty = true
          · rw [if_pos hd] at h
            cases h
            exact ih _ hs
          · rw [if_neg hd] at h
            cases h
            intro ps hps
            rcases List.mem_cons.mp hps with h1 | h2
            · subst h1
              show d ≠ []
              intro hnil
              subst hnil
              simp at hd
            · exact ih _ hs ps h2

theorem packet_acknowledgements_ok_inv (A : Adapter)
    (req : QueryPacketAcknowledgementsRequest) (resp : QueryPacketAcknowledgementsResponse)
    (h : IbcChannelService.packet_acknowledgements A req = .ok resp) :
    ∃ qs, IbcChannelService.packetAcksScan A qs = .ok resp.acknowledgements := by
  unfold IbcChannelService.packet_acknowledgements at h
  by_cases hp : validIdentifier req.port_id = true
  · simp only [hp, if_true] at h
    by_cases hc : validIdentifier req.channel_id = true
    · simp only [hc, if_true] at h
      cases hg : Adapter.get_paths_by_pfx A "acks/ports" with
      | error e => simp only [hg] at h; cases h
      | ok keys =>
        simp only [hg] at h
        cases hs : IbcChannelService.packetAcksScan A
            (keys.filterMap
              (IbcChannelService.matching_ack_paths req.port_id req.channel_id)) with
        | ok l =>
          simp only [hs] at h
          cases h
          exact ⟨_, hs⟩
        | err s => simp only [hs] at h; cases h
        | fatal m => simp only [hs] at h; cases h
    · rw [if_neg hc] at h; cases h
  · rw [if_neg hp] at h; cases h

theorem packet_commitments_ok_inv (A : Adapter)
    (req : QueryPacketCommitmentsRequest) (resp : QueryPacketCommitmentsResponse)
    (h : IbcChannelService.packet_commitments A req = .ok resp) :
    ∃ qs, IbcChannelService.packetCommitmentsScan A qs = .ok resp.commitments := by
  unfold IbcChannelService.packet_commitments at h
  by_cases hp : validIdentifier req.port_id = true
  · simp only [hp, if_true] at h
    by_cases hc : validIdentifier req.channel_id = true
    · simp only [hc, if_true] at h
      cases hg : Adapter.get_paths_by_pfx A "commitments/ports" with
      | error e => simp only [hg] at h; cases h
      | ok keys =>
        simp only [hg] at h
        cases hs : IbcChannelService.packetCommitmentsScan A
            (keys.filterMap
              (IbcChannelService.matching_commitment_paths req.port_id req.channel_id)) with
        | ok l =>
          simp only [hs] at h
          cases h
          exact ⟨_, hs⟩
        | err s => simp only [hs] at h; cases h
        | fatal m => simp only [hs] at h; cases h
    · rw [if_neg hc] at h; cases h
  · rw [if_neg hp] at h; cases h

theorem matching_ack_paths_some (port chan : String) (p : RawPath) (q : AcksPath)
    (h : IbcChannelService.matching_ack_paths port chan p = some q) :
    q.port_id = port ∧ q.channel_id = chan := by
  unfold IbcChannelService.matching_ack_paths at h
  split at h
  next q0 heq =>
    by_cases hgu : q0.port_id = port ∧ q0.channel_id = chan
    · rw [if_pos hgu] at h
      cases h
      exact hgu
    · rw [if_neg hgu] at h
      cases h
  next => cases h

theorem matching_commitment_paths_some (port chan : String) (p : RawPath)
    (q : CommitmentsPath)
    (h : IbcChannelService.matching_commitment_paths port chan p = some q) :
    q.port_id = port ∧ q.channel_id = chan := by
  unfold IbcChannelService.matching_commitment_paths at h
  split at h
  next q0 heq =>
    by_cases hgu : q0.port_id = port ∧ q0.channel_id = chan
    · rw [if_pos hgu] at h
      cases h
      exact hgu
    · rw [if_neg hgu] at h
      cases h
  next => cases h

theorem matching_ack_paths_self (port chan : String) (seq : Nat) :
    IbcChannelService.matching_ack_paths port chan
        (.valid (.Acks { port_id := port, channel_id := chan, sequence := seq })) =
      some { port_id := port, channel_id := chan, sequence := seq } := by
  simp [IbcChannelService.matching_ack_paths, tryIntoIbcPath]

theorem matching_commitment_paths_self (port chan : String) (seq : Nat) :
    IbcChannelService.matching_commitment_paths port chan
        (.valid (.Commitments { port_id := port, channel_id := chan, sequence := seq })) =
      some { port_id := port, channel_id := chan, sequence := seq } := by
  simp [IbcChannelService.matching_commitment_paths, tryIntoIbcPath]

theorem ackEntryOf_some (S : StoreState) (q : AcksPath) (ps : PacketState)
    (h : ackEntryOf S q = some ps) :
    lookupKV (q.port_id, q.channel_id, q.sequence) S.acks = some ps.data ∧
      ps.port_id = q.port_id ∧ ps.channel_id = q.channel_id ∧ ps.sequence = q.sequence := by
  unfold ackEntryOf at h
  cases hl : lookupKV (q.port_id, q.channel_id, q.sequence) S.acks with
  | none => simp only [hl] at h; cases h
  | some d =>
    simp only [hl] at h
    by_cases hd : d.isEmpty = true
    · rw [if_pos hd] at h; cases h
    · rw [if_neg hd] at h
      cases h
      exact ⟨rfl, rfl, rfl, rfl⟩

theorem commitEntryOf_some (S : StoreState) (q : CommitmentsPath) (ps : PacketState)
    (h : commitEntryOf S q = some ps) :
    lookupKV (q.port_id, q.channel_id, q.sequence) S.commitments = some ps.data ∧
      ps.port_id = q.port_id ∧ ps.channel_id = q.channel_id ∧ ps.sequence = q.sequence := by
  unfold commitEntryOf at h
  cases hl : lookupKV (q.port_id, q.channel_id, q.sequence) S.commitments with
  | none => simp only [hl] at h; cases h
  | some d =>
    simp only [hl] at h
    by_cases hd : d.isEmpty = true
    · rw [if_pos hd] at h; cases h
    · rw [if_neg hd] at h
      cases h
      exact ⟨rfl, rfl, rfl, rfl⟩

/-! ## Claim C1 -/

theorem create_client_state (st : CtxState) (m : MsgCreateAnyClient) :
    ((create_client st m).1).client_counter = (st.client_counter + 1) % u64Mod := rfl

theorem runCreations_cons (st : CtxState) (m : MsgCreateAnyClient)
    (ms : List MsgCreateAnyClient) :
    (runCreations st (m :: ms)).2 =
      allocatedClientId st m :: (runCreations (create_client st m).1 ms).2 := rfl

theorem runCreations_counters (msgs : List MsgCreateAnyClient) (st : CtxState)
    (h : st.client_counter + msgs.length <= u64Mod) :
    ((runCreations st msgs).2).map ClientId.counter =
      List.range' st.client_counter msgs.length := by
  induction msgs generalizing st with
  | nil => rfl
  | cons m ms ih =>
    rw [runCreations_cons, List.map_cons]
    have hlen : st.client_counter + (ms.length + 1) <= u64Mod := by
      simpa [Nat.add_comm, Nat.add_left_comm, Nat.add_assoc] using h
    rcases Nat.lt_or_ge (st.client_counter + 1) u64Mod with hw | hw
    · have hmod : ((create_client st m).1).client_counter = st.client_counter + 1 := by
        rw [create_client_state]
        exact Nat.mod_eq_of_lt hw
      have ihh := ih (create_client st m).1 (by rw [hmod]; omega)
      rw [ihh, hmod]
      rfl
    · have hms : ms = [] := by
        have : ms.length = 0 := by omega
        exact List.length_eq_zero.mp this
      subst hms
      rfl

/-- Claim C1: a successful CreateClient allocates the client id from
the message client type and the current client counter, the counter
goes up by exactly one (as a wrapping u64) per successful creation,
and the ids allocated by a sequence of successful creations that does
not exhaust the u64 counter are pairwise distinct. -/
theorem claim_c1 (st : CtxState) (msgs : List MsgCreateAnyClient)
    (s : CtxState) (m : MsgCreateAnyClient) (s2 : CtxState) (evs : List IbcEvent)
    (r : MsgCreateClientResponse)
    (hbound : st.client_counter + msgs.length <= u64Mod)
    (hstep : create_client s m = (s2, evs, .ok r)) :
    allocatedClientId s m =
      { client_type := m.client_state.client_type, counter := s.client_counter } ∧
    s2.client_counter = (s.client_counter + 1) % u64Mod ∧
    ((runCreations st msgs).2).Nodup := by
  refine ⟨rfl, ?_, ?_⟩
  · have hs2 : s2 = (create_client s m).1 := by rw [hstep]
    rw [hs2, create_client_state]
  · have hmap := runCreations_counters msgs st hbound
    have hnd : (List.range' st.client_counter msgs.length).Nodup :=
      List.nodup_range' st.client_counter msgs.length 1 (by omega)
    rw [← hmap] at hnd
    exact List.Nodup.of_map ClientId.counter hnd

/-- Witness for C1: two successive creations from a fresh context
allocate (T, 0) then (U, 1), distinct ids. -/
theorem claim_c1_witness :
    (allocatedClientId sampleCtx sampleMsgT =
      { client_type := "T", counter := 0 } ∧
    ((create_client sampleCtx sampleMsgT).1).client_counter = (0 + 1) % u64Mod ∧
    ((runCreations sampleCtx [sampleMsgT, sampleMsgU]).2).Nodup) ∧
    (runCreations sampleCtx [sampleMsgT, sampleMsgU]).2 =
      [{ client_type := "T", counter := 0 }, { client_type := "U", counter := 1 }] := by
  refine ⟨?_, by decide⟩
  have h := claim_c1 sampleCtx [sampleMsgT, sampleMsgU] sampleCtx sampleMsgT
    (create_client sampleCtx sampleMsgT).1 (create_client sampleCtx sampleMsgT).2.1
    {} (by decide) rfl
  exact h

/-! ## Claim C2 -/

/-- Claim C2: delete_packet_acknowledgement stores the empty
acknowledgement under its (port, channel, sequence) key rather than
removing the record, and the PacketAcknowledgements and
PacketCommitments queries drop every entry whose fetched bytes are
empty, so a deleted acknowledgement or commitment no longer appears
in later query results while every non-empty stored entry for the
requested (port, channel) does appear. -/
theorem claim_c2 (S : StoreState) (port chan : String) (seq : Nat)
    (hp : validIdentifier port = true) (hc : validIdentifier chan = true) :
    -- the ack delete is a tombstone, not a physical delete
    (lookupKV (port, chan, seq)
        (delete_packet_acknowledgement (port, chan, seq) S).acks = some []) ∧
    -- a deleted ack no longer appears
    (∀ resp, IbcChannelService.packet_acknowledgements
        (storeAdapter (delete_packet_acknowledgement (port, chan, seq) S))
        { port_id := port, channel_id := chan } = .ok resp →
      ∀ ps ∈ resp.acknowledgements, ps.sequence ≠ seq) ∧
    -- a stored non-empty ack appears
    (∀ d, d ≠ [] → lookupKV (port, chan, seq) S.acks = some d →
      ∃ resp, IbcChannelService.packet_acknowledgements (storeAdapter S)
          { port_id := port, channel_id := chan } = .ok resp ∧
        ({ port_id := port, channel_id := chan, sequence := seq, data := d } : PacketState)
          ∈ resp.acknowledgements) ∧
    -- a deleted commitment no longer appears
    (∀ resp, IbcChannelService.packet_commitments
        (storeAdapter (delete_packet_commitment (port, chan, seq) S))
        { port_id := port, channel_id := chan } = .ok resp →
      ∀ ps ∈ resp.commitments, ps.sequence ≠ seq) ∧
    -- a stored non-empty commitment appears
    (∀ d, d ≠ [] → lookupKV (port, chan, seq) S.commitments = some d →
      ∃ resp, IbcChannelService.packet_commitments (storeAdapter S)
          { port_id := port, channel_id := chan } = .ok resp ∧
        ({ port_id := port, channel_id := chan, sequence := seq, data := d } : PacketState)
          ∈ resp.commitments) ∧
    -- neither query ever surfaces empty bytes, over any adapter
    (∀ (A : Adapter) req resp,
      IbcChannelService.packet_acknowledgements A req = .ok resp →
      ∀ ps ∈ resp.acknowledgements, ps.data ≠ []) ∧
    (∀ (A : Adapter) req resp,
      IbcChannelService.packet_commitments A req = .ok resp →
      ∀ ps ∈ resp.commitments, ps.data ≠ []) := by
  refine ⟨?_, ?_, ?_, ?_, ?_, ?_, ?_⟩
  · simp [delete_packet_acknowledgement, store_packet_acknowledgement, lookupKV_setKV_self]
  · intro resp h ps hps
    rw [packet_acknowledgements_store _ port chan hp hc] at h
    cases h
    rcases List.mem_filterMap.mp hps with ⟨q, hq, hentry⟩
    rcases List.mem_filterMap.mp hq with ⟨p, _, hmatch⟩
    rcases matching_ack_paths_some port chan p q hmatch with ⟨hqp, hqc⟩
    rcases ackEntryOf_some _ q ps hentry with ⟨hlook, _, _, hseq⟩
    intro hpss
    rw [hqp, hqc, ← hseq, hpss] at hlook
    have htomb : lookupKV (port, chan, seq)
        (delete_packet_acknowledgement (port, chan, seq) S).acks = some [] := by
      simp [delete_packet_acknowledgement, store_packet_acknowledgement, lookupKV_setKV_self]
    rw [htomb] at hlook
    have hdata : ps.data = [] := by
      injection hlook with h2
      exact h2.symm
    rcases packet_acknowledgements_ok_inv _ _ _
        (packet_acknowledgements_store
          (delete_packet_acknowledgement (port, chan, seq) S) port chan hp hc) with ⟨qs, hscan⟩
    exact packetAcksScan_data_ne_nil _ qs _ hscan ps hps hdata
  · intro d hd hlook
    refine ⟨_, packet_acknowledgements_store S port chan hp hc, ?_⟩
    have hmem : ((port, chan, seq), d) ∈ S.acks := lookupKV_eq_some_mem hlook
    apply List.mem_filterMap.mpr
    refine ⟨{ port_id := port, channel_id := chan, sequence := seq }, ?_, ?_⟩
    · apply List.mem_filterMap.mpr
      refine ⟨ackPathOf ((port, chan, seq), d), List.mem_map.mpr ⟨_, hmem, rfl⟩, ?_⟩
      exact matching_ack_paths_self port chan seq
    · unfold ackEntryOf
      simp only [hlook]
      rw [if_neg (by simpa using hd)]
  · intro resp h ps hps
    rw [packet_commitments_store _ port chan hp hc] at h
    cases h
    rcases List.mem_filterMap.mp hps with ⟨q, hq, hentry⟩
    rcases List.mem_filterMap.mp hq with ⟨p, _, hmatch⟩
    rcases matching_commitment_paths_some port chan p q hmatch with ⟨hqp, hqc⟩
    rcases commitEntryOf_some _ q ps hentry with ⟨hlook, _, _, hseq⟩
    intro hpss
    rw [hqp, hqc, ← hseq, hpss] at hlook
    have hgone : lookupKV (port, chan, seq)
        (delete_packet_commitment (port, chan, seq) S).commitments = none := by
      simp [delete_packet_commitment, lookupKV_eraseKV_self]
    rw [hgone] at hlook
    cases hlook
  · intro d hd hlook
    refine ⟨_, packet_commitments_store S port chan hp hc, ?_⟩
    have hmem : ((port, chan, seq), d) ∈ S.commitments := lookupKV_eq_some_mem hlook
    apply List.mem_filterMap.mpr
    refine ⟨{ port_id := port, channel_id := chan, sequence := seq }, ?_, ?_⟩
    · apply List.mem_filterMap.mpr
      refine ⟨commitPathOf ((port, chan, seq), d), List.mem_map.mpr ⟨_, hmem, rfl⟩, ?_⟩
      exact matching_commitment_paths_self port chan seq
    · unfold commitEntryOf
      simp only [hlook]
      rw [if_neg (by simpa using hd)]
  · intro A req resp h
    rcases packet_acknowledgements_ok_inv A req resp h with ⟨qs, hscan⟩
    exact packetAcksScan_data_ne_nil A qs _ hscan
  · intro A req resp h
    rcases packet_commitments_ok_inv A req resp h with ⟨qs, hscan⟩
    exact packetCommitmentsScan_data_ne_nil A qs _ hscan

/-- Witness for C2 at a concrete store: deleting ack (p, c, 5)
leaves an empty tombstone under its key, and the nonempty-data
guarantee holds for a concrete PacketAcknowledgements response. -/
theorem claim_c2_witness :
    lookupKV ("p", "c", 5)
        (delete_packet_acknowledgement ("p", "c", 5) sampleStore).acks = some [] ∧
    ({ port_id := "p", channel_id := "c", sequence := 5, data := [3] } : PacketState).data
      ≠ [] :=
  ⟨(claim_c2 sampleStore "p" "c" 5 (by decide) (by decide)).1,
   (claim_c2 sampleStore "p" "c" 5 (by decide) (by decide)).2.2.2.2.2.1
     (storeAdapter sampleStore) { port_id := "p", channel_id := "c" }
     { acknowledgements :=
         [{ port_id := "p", channel_id := "c", sequence := 5, data := [3] }],
       pagination := none,
       height := some { revision_number := 0, revision_height := 9 } }
     (by decide)
     { port_id := "p", channel_id := "c", sequence := 5, data := [3] } (by decide)⟩

/-! ## Claims C3 and C4 -/

/-- Claim C3: for every (port, channel) and candidate sequence list,
the UnreceivedAcks query returns exactly those candidate sequences
whose packet commitment still exists in the store at Pending height;
in particular a sequence whose commitment was just stored is
returned, and a sequence whose commitment has been cleared by
delete_packet_commitment is not. -/
theorem claim_c3 (S : StoreState) (port chan : String) (seq : Nat) (d : List Nat)
    (seqs : List Nat)
    (hp : validIdentifier port = true) (hc : validIdentifier chan = true) :
    (IbcChannelService.unreceived_acks (storeAdapter S)
        { port_id := port, channel_id := chan, packet_ack_sequences := seqs } =
      .ok { sequences :=
              seqs.filter (fun n => (lookupKV (port, chan, n) S.commitments).isSome),
            height := some { revision_number := CHAIN_REVISION_NUMBER,
                             revision_height := S.height } }) ∧
    (IbcChannelService.unreceived_acks
        (storeAdapter (store_packet_commitment (port, chan, seq) d S))
        { port_id := port, channel_id := chan, packet_ack_sequences := [seq] } =
      .ok { sequences := [seq],
            height := some { revision_number := CHAIN_REVISION_NUMBER,
                             revision_height := S.height } }) ∧
    (IbcChannelService.unreceived_acks
        (storeAdapter (delete_packet_commitment (port, chan, seq) S))
        { port_id := port, channel_id := chan, packet_ack_sequences := [seq] } =
      .ok { sequences := [],
            height := some { revision_number := CHAIN_REVISION_NUMBER,
                             revision_height := S.height } }) := by
  refine ⟨unreceived_acks_store S port chan seqs hp hc, ?_, ?_⟩
  · rw [unreceived_acks_store _ port chan [seq] hp hc]
    simp [store_packet_commitment, lookupKV_setKV_self, List.filter]
  · rw [unreceived_acks_store _ port chan [seq] hp hc]
    simp [delete_packet_commitment, lookupKV_eraseKV_self, List.filter]

/-- Witness for C3 at a concrete store: sequence 5 has a live
commitment and 7 a tombstoned-empty one (still physically present),
6 none; after deleting commitment 5 it is no longer reported. -/
theorem claim_c3_witness :
    IbcChannelService.unreceived_acks (storeAdapter sampleStore)
        { port_id := "p", channel_id := "c", packet_ack_sequences := [5, 6, 7] } =
      .ok { sequences := [5, 7],
            height := some { revision_number := 0, revision_height := 9 } } ∧
    IbcChannelService.unreceived_acks
        (storeAdapter (delete_packet_commitment ("p", "c", 5) sampleStore))
        { port_id := "p", channel_id := "c", packet_ack_sequences := [5] } =
      .ok { sequences := [],
            height := some { revision_number := 0, revision_height := 9 } } := by
  have h := claim_c3 sampleStore "p" "c" 5 [9] [5, 6, 7] (by decide) (by decide)
  exact ⟨h.1.trans (by decide), h.2.2⟩

/-- Claim C4: for every (port, channel) and candidate sequence list,
the UnreceivedPackets query returns exactly those candidate sequences
for which no receipt marker exists in the store at Pending height; a
sequence without a receipt is returned, and once its receipt is
recorded via store_packet_receipt it is not. -/
theorem claim_c4 (S : StoreState) (port chan : String) (seq : Nat) (seqs : List Nat)
    (hp : validIdentifier port = true) (hc : validIdentifier chan = true) :
    (IbcChannelService.unreceived_packets (storeAdapter S)
        { port_id := port, channel_id := chan, packet_commitment_sequences := seqs } =
      .ok { sequences :=
              seqs.filter (fun n => !(lookupKV (port, chan, n) S.receipts).isSome),
            height := some { revision_number := CHAIN_REVISION_NUMBER,
                             revision_height := S.height } }) ∧
    (lookupKV (port, chan, seq) S.receipts = none →
      IbcChannelService.unreceived_packets (storeAdapter S)
        { port_id := port, channel_id := chan, packet_commitment_sequences := [seq] } =
      .ok { sequences := [seq],
            height := some { revision_number := CHAIN_REVISION_NUMBER,
                             revision_height := S.height } }) ∧
    (IbcChannelService.unreceived_packets
        (storeAdapter (store_packet_receipt (port, chan, seq) S))
        { port_id := port, channel_id := chan, packet_commitment_sequences := [seq] } =
      .ok { sequences := [],
            height := some { revision_number := CHAIN_REVISION_NUMBER,
                             revision_height := S.height } }) := by
  refine ⟨unreceived_packets_store S port chan seqs hp hc, ?_, ?_⟩
  · intro hr
    rw [unreceived_packets_store _ port chan [seq] hp hc]
    simp [hr, List.filter]
  · rw [unreceived_packets_store _ port chan [seq] hp hc]
    simp [store_packet_receipt, lookupKV_setKV_self, List.filter]

/-- Witness for C4 at a concrete store: sequence 5 has no receipt and
is reported unreceived; after its receipt is recorded it is not. -/
theorem claim_c4_witness :
    IbcChannelService.unreceived_packets (storeAdapter sampleStore)
        { port_id := "p", channel_id := "c", packet_commitment_sequences := [5] } =
      .ok { sequences := [5],
            height := some { revision_number := 0, revision_height := 9 } } ∧
    IbcChannelService.unreceived_packets
        (storeAdapter (store_packet_receipt ("p", "c", 5) sampleStore))
        { port_id := "p", channel_id := "c", packet_commitment_sequences := [5] } =
      .ok { sequences := [],
            height := some { revision_number := 0, revision_height := 9 } } := by
  have h := claim_c4 sampleStore "p" "c" 5 [5] (by decide) (by decide)
  exact ⟨h.2.1 (by decide), h.2.2⟩

/-! ## Claim C5 (corrected) -/

/-- Counterexample for C5: two concrete successful CreateClient calls
emit different CreateClient events into the handler-local output, yet
the values returned to the RPC caller are equal (the empty
MsgCreateClientResponse), so the emitted event is not handed outward
to the caller. -/
theorem claim_c5_counterexample :
    (create_client sampleCtx sampleMsgT).2.2 = .ok {} ∧
    (create_client sampleCtx sampleMsgU).2.2 = .ok {} ∧
    (create_client sampleCtx sampleMsgT).2.1 =
      [.CreateClient { client_type := "T", counter := 0 }] ∧
    (create_client sampleCtx sampleMsgU).2.1 =
      [.CreateClient { client_type := "U", counter := 0 }] ∧
    (create_client sampleCtx sampleMsgT).2.1 ≠ (create_client sampleCtx sampleMsgU).2.1 ∧
    (create_client sampleCtx sampleMsgT).2.2 = (create_client sampleCtx sampleMsgU).2.2 :=
  ⟨rfl, rfl, rfl, rfl, by decide, rfl⟩

/-- Claim C5 (amended): every successful CreateClient emits a
CreateClient event carrying the newly allocated client id into the
handler-local output builder, but that builder is discarded: the only
value returned to the RPC caller is the empty MsgCreateClientResponse,
which carries no event data. -/
theorem claim_c5_amended (s : CtxState) (m : MsgCreateAnyClient) (s2 : CtxState)
    (evs : List IbcEvent) (r : MsgCreateClientResponse)
    (hstep : create_client s m = (s2, evs, .ok r)) :
    evs = [.CreateClient (allocatedClientId s m)] ∧ r = {} := by
  have h1 : evs = (create_client s m).2.1 := by rw [hstep]
  constructor
  · rw [h1]
    rfl
  · cases r
    rfl

/-- Witness for C5 (amended) at a concrete creation. -/
theorem claim_c5_amended_witness :
    (create_client sampleCtx sampleMsgT).2.1 =
      [.CreateClient (allocatedClientId sampleCtx sampleMsgT)] ∧
    (MsgCreateClientResponse.mk : MsgCreateClientResponse) = {} :=
  claim_c5_amended sampleCtx sampleMsgT (create_client sampleCtx sampleMsgT).1
    (create_client sampleCtx sampleMsgT).2.1 {} rfl

/-! ## Claim C6 (corrected) -/

/-- Counterexample for C6: on an adapter whose client-to-connections
index read fails, the ClientConnections query answers with a
successful empty response instead of surfacing the store failure as a
data-loss or internal error. -/
theorem claim_c6_counterexample :
    Adapter.get_connection_ids connIdsFailAdapter StoreHeight.pending
        { client_id := "client-0" } = .error "store read failure" ∧
    IbcConnectionService.client_connections connIdsFailAdapter { client_id := "client-0" } =
      .ok { connection_paths := [], proof := [], proof_height := none } :=
  ⟨rfl, by decide⟩

/-- Claim C6 (amended): implemented queries surface a failed store
read on required data as a data-loss (point reads during and after
scans) or internal (prefix enumeration) error, with three exceptions:
ClientConnections silently substitutes the empty list for a failed
index read, UnreceivedPackets treats a failed receipt read as an
absent receipt (the sequence is reported unreceived), and
UnreceivedAcks treats a failed commitment read as an absent
commitment (the sequence is dropped). -/
theorem claim_c6_amended :
    (∀ (A : Adapter) (cid e : String), validIdentifier cid = true →
      Adapter.get_connection_ids A StoreHeight.pending { client_id := cid } = .error e →
      IbcConnectionService.client_connections A { client_id := cid } =
        .ok { connection_paths := [], proof := [], proof_height := none }) ∧
    (∀ (A : Adapter) (p c e : String) (n : Nat), validIdentifier p = true →
      validIdentifier c = true →
      Adapter.get_opt_receipt A StoreHeight.pending
        { port_id := p, channel_id := c, sequence := n } = .error e →
      IbcChannelService.unreceived_packets A
        { port_id := p, channel_id := c, packet_commitment_sequences := [n] } =
        .ok { sequences := [n],
              height := some { revision_number := CHAIN_REVISION_NUMBER,
                               revision_height := A.current_height } }) ∧
    (∀ (A : Adapter) (p c e : String) (n : Nat), validIdentifier p = true →
      validIdentifier c = true →
      Adapter.get_packet_commitment A StoreHeight.pending
        { port_id := p, channel_id := c, sequence := n } = .error e →
      IbcChannelService.unreceived_acks A
        { port_id := p, channel_id := c, packet_ack_sequences := [n] } =
        .ok { sequences := [],
              height := some { revision_number := CHAIN_REVISION_NUMBER,
                               revision_height := A.current_height } }) ∧
    (∀ (A : Adapter) (cid e : String), validIdentifier cid = true →
      Adapter.get_connection_end A StoreHeight.pending { connection_id := cid } = .error e →
      IbcConnectionService.connection A { connection_id := cid } = .err (.dataLoss e)) ∧
    (∀ (A : Adapter) (p c e : String), validIdentifier p = true →
      validIdentifier c = true →
      Adapter.get_channel_end A StoreHeight.pending
        { port_id := p, channel_id := c } = .error e →
      IbcChannelService.channel A { port_id := p, channel_id := c } =
        .err (.dataLoss e)) ∧
    (∀ (A : Adapter) (e : String),
      Adapter.get_paths_by_pfx A "clients" = .error e →
      IbcClientService.client_states A {} = .err (.internal e)) ∧
    (∀ (A : Adapter) (e : String) (q : ClientStatePath),
      Adapter.get_paths_by_pfx A "clients" = .ok [.valid (.ClientState q)] →
      Adapter.get_client_state A StoreHeight.pending q = .error e →
      IbcClientService.client_states A {} = .err (.dataLoss e)) ∧
    (∀ (A : Adapter) (cid e : String) (q : ClientConsensusStatePath),
      validIdentifier cid = true →
      Adapter.get_paths_by_pfx A ("clients/" ++ cid ++ "/consensusStates") =
        .ok [.valid (.ClientConsensusState q)] →
      Adapter.get_consensus_state A StoreHeight.pending q = .error e →
      IbcClientService.consensus_states A { client_id := cid } = .err (.dataLoss e)) ∧
    (∀ (A : Adapter) (e : String) (q : ConnectionsPath),
      Adapter.get_paths_by_pfx A "connections" = .ok [.valid (.Connections q)] →
      Adapter.get_connection_end A StoreHeight.pending q = .error e →
      IbcConnectionService.connections A {} = .err (.dataLoss e)) ∧
    (∀ (A : Adapter) (e : String) (q : ChannelEndsPath),
      Adapter.get_paths_by_pfx A "channelEnds/ports" = .ok [.valid (.ChannelEnds q)] →
      Adapter.get_channel_end A StoreHeight.pending q = .error e →
      IbcChannelService.channels A {} = .err (.dataLoss e)) ∧
    (∀ (A : Adapter) (cid e : String) (q : ChannelEndsPath),
      validIdentifier cid = true →
      Adapter.get_paths_by_pfx A "channelEnds" = .ok [.valid (.ChannelEnds q)] →
      Adapter.get_channel_end A StoreHeight.pending q = .error e →
      IbcChannelService.connection_channels A { connection := cid } =
        .err (.dataLoss e)) ∧
    (∀ (A : Adapter) (p c e : String) (n : Nat), validIdentifier p = true →
      validIdentifier c = true →
      Adapter.get_paths_by_pfx A "commitments/ports" =
        .ok [.valid (.Commitments { port_id := p, channel_id := c, sequence := n })] →
      Adapter.get_packet_commitment A StoreHeight.pending
        { port_id := p, channel_id := c, sequence := n } = .error e →
      IbcChannelService.packet_commitments A { port_id := p, channel_id := c } =
        .err (.dataLoss e)) ∧
    (∀ (A : Adapter) (p c e : String) (n : Nat), validIdentifier p = true →
      validIdentifier c = true →
      Adapter.get_paths_by_pfx A "acks/ports" =
        .ok [.valid (.Acks { port_id := p, channel_id := c, sequence := n })] →
      Adapter.get_acknowledgement_commitment A StoreHeight.pending
        { port_id := p, channel_id := c, sequence := n } = .error e →
      IbcChannelService.packet_acknowledgements A { port_id := p, channel_id := c } =
        .err (.dataLoss e)) := by
  refine ⟨?_, ?_, ?_, ?_, ?_, ?_, ?_, ?_, ?_, ?_, ?_, ?_, ?_⟩
  · intro A cid e hv he
    simp [IbcConnectionService.client_connections, hv, he]
  · intro A p c e n hvp hvc he
    simp [IbcChannelService.unreceived_packets, hvp, hvc,
      IbcChannelService.packetReceiptAbsent, he, List.filter]
  · intro A p c e n hvp hvc he
    simp [IbcChannelService.unreceived_acks, hvp, hvc,
      IbcChannelService.packetCommitmentStillThere, he, List.filter]
  · intro A cid e hv he
    simp [IbcConnectionService.connection, hv, he]
  · intro A p c e hvp hvc he
    simp [IbcChannelService.channel, hvp, hvc, he]
  · intro A e hscan
    simp [IbcClientService.client_states, hscan]
  · intro A e q hscan hget
    simp [IbcClientService.client_states, hscan, IbcClientService.client_state_paths,
      tryIntoIbcPath, IbcClientService.clientStatesScan, hget]
  · intro A cid e q hv hscan hget
    simp [IbcClientService.consensus_states, hv, hscan, tryIntoIbcPath,
      IbcClientService.consensusStatesScan, hget]
  · intro A e q hscan hget
    simp [IbcConnectionService.connections, hscan, tryIntoIbcPath,
      IbcConnectionService.connectionsScan, hget]
  · intro A e q hscan hget
    simp [IbcChannelService.channels, hscan, tryIntoIbcPath,
      IbcChannelService.channelsScan, hget]
  · intro A cid e q hv hscan hget
    simp [IbcChannelService.connection_channels, hv, hscan, tryIntoIbcPath,
      IbcChannelService.connectionChannelsScan, hget]
  · intro A p c e n hvp hvc hscan hget
    simp [IbcChannelService.packet_commitments, hvp, hvc, hscan,
      IbcChannelService.matching_commitment_paths, tryIntoIbcPath,
      IbcChannelService.packetCommitmentsScan, hget]
  · intro A p c e n hvp hvc hscan hget
    simp [IbcChannelService.packet_acknowledgements, hvp, hvc, hscan,
      IbcChannelService.matching_ack_paths, tryIntoIbcPath,
      IbcChannelService.packetAcksScan, hget]

/-- Witness for C6 (amended), every conjunct applied at a concrete
failing adapter. -/
theorem claim_c6_amended_witness :
    IbcConnectionService.client_connections connIdsFailAdapter { client_id := "client-0" } =
      .ok { connection_paths := [], proof := [], proof_height := none } ∧
    IbcChannelService.unreceived_packets (failAdapter (.invalid "k"))
        { port_id := "p", channel_id := "c", packet_commitment_sequences := [1] } =
      .ok { sequences := [1],
            height := some { revision_number := 0, revision_height := 7 } } ∧
    IbcChannelService.unreceived_acks (failAdapter (.invalid "k"))
        { port_id := "p", channel_id := "c", packet_ack_sequences := [1] } =
      .ok { sequences := [],
            height := some { revision_number := 0, revision_height := 7 } } ∧
    IbcConnectionService.connection (failAdapter (.invalid "k"))
        { connection_id := "connection-0" } = .err (.dataLoss "store read failure") ∧
    IbcChannelService.channel (failAdapter (.invalid "k"))
        { port_id := "p", channel_id := "c" } = .err (.dataLoss "store read failure") ∧
    IbcClientService.client_states scanFailAdapter {} =
      .err (.internal "store read failure") ∧
    IbcClientService.client_states (failAdapter (.valid (.ClientState { client_id := "c0" }))) {} =
      .err (.dataLoss "store read failure") ∧
    IbcClientService.consensus_states
        (failAdapter (.valid (.ClientConsensusState
          { client_id := "c0", epoch := 0, height := 1 }))) { client_id := "c0" } =
      .err (.dataLoss "store read failure") ∧
    IbcConnectionService.connections
        (failAdapter (.valid (.Connections { connection_id := "connection-0" }))) {} =
      .err (.dataLoss "store read failure") ∧
    IbcChannelService.channels
        (failAdapter (.valid (.ChannelEnds { port_id := "p", channel_id := "c" }))) {} =
      .err (.dataLoss "store read failure") ∧
    IbcChannelService.connection_channels
        (failAdapter (.valid (.ChannelEnds { port_id := "p", channel_id := "c" })))
        { connection := "connection-0" } = .err (.dataLoss "store read failure") ∧
    IbcChannelService.packet_commitments
        (failAdapter (.valid (.Commitments
          { port_id := "p", channel_id := "c", sequence := 1 })))
        { port_id := "p", channel_id := "c" } = .err (.dataLoss "store read failure") ∧
    IbcChannelService.packet_acknowledgements
        (failAdapter (.valid (.Acks { port_id := "p", channel_id := "c", sequence := 1 })))
        { port_id := "p", channel_id := "c" } = .err (.dataLoss "store read failure") :=
  ⟨claim_c6_amended.1 connIdsFailAdapter "client-0" "store read failure" (by decide) rfl,
   claim_c6_amended.2.1 (failAdapter (.invalid "k")) "p" "c" "store read failure" 1
     (by decide) (by decide) rfl,
   claim_c6_amended.2.2.1 (failAdapter (.invalid "k")) "p" "c" "store read failure" 1
     (by decide) (by decide) rfl,
   claim_c6_amended.2.2.2.1 (failAdapter (.invalid "k")) "connection-0" "store read failure"
     (by decide) rfl,
   claim_c6_amended.2.2.2.2.1 (failAdapter (.invalid "k")) "p" "c" "store read failure"
     (by decide) (by decide) rfl,
   claim_c6_amended.2.2.2.2.2.1 scanFailAdapter "store read failure" rfl,
   claim_c6_amended.2.2.2.2.2.2.1 (failAdapter (.valid (.ClientState { client_id := "c0" })))
     "store read failure" { client_id := "c0" } rfl rfl,
   claim_c6_amended.2.2.2.2.2.2.2.1
     (failAdapter (.valid (.ClientConsensusState { client_id := "c0", epoch := 0, height := 1 })))
     "c0" "store read failure" { client_id := "c0", epoch := 0, height := 1 } (by decide) rfl rfl,
   claim_c6_amended.2.2.2.2.2.2.2.2.1
     (failAdapter (.valid (.Connections { connection_id := "connection-0" })))
     "store read failure" { connection_id := "connection-0" } rfl rfl,
   claim_c6_amended.2.2.2.2.2.2.2.2.2.1
     (failAdapter (.valid (.ChannelEnds { port_id := "p", channel_id := "c" })))
     "store read failure" { port_id := "p", channel_id := "c" } rfl rfl,
   claim_c6_amended.2.2.2.2.2.2.2.2.2.2.1
     (failAdapter (.valid (.ChannelEnds { port_id := "p", channel_id := "c" })))
     "connection-0" "store read failure" { port_id := "p", channel_id := "c" }
     (by decide) rfl rfl,
   claim_c6_amended.2.2.2.2.2.2.2.2.2.2.2.1
     (failAdapter (.valid (.Commitments { port_id := "p", channel_id := "c", sequence := 1 })))
     "p" "c" "store read failure" 1 (by decide) (by decide) rfl rfl,
   claim_c6_amended.2.2.2.2.2.2.2.2.2.2.2.2
     (failAdapter (.valid (.Acks { port_id := "p", channel_id := "c", sequence := 1 })))
     "p" "c" "store read failure" 1 (by decide) (by decide) rfl rfl⟩

/-! ## Claim C7 -/

/-- Claim C7: during the scans whose prefix contract guarantees a
single entity kind (the ConsensusStates, Connections and Channels
queries), a listed path that does not decode to the expected variant
makes the handler panic with "unexpected path" rather than return an
error response; during the non-homogeneous scans (the ClientStates
and ConnectionChannels queries) such a path is skipped, not treated
as an error. -/
theorem claim_c7 :
    (∀ (A : Adapter) (cid : String) (p : RawPath) (rest : List RawPath),
      validIdentifier cid = true →
      Adapter.get_paths_by_pfx A ("clients/" ++ cid ++ "/consensusStates") =
        .ok (p :: rest) →
      (∀ q, tryIntoIbcPath p ≠ .ok (.ClientConsensusState q)) →
      IbcClientService.consensus_states A { client_id := cid } =
        .fatal "unexpected path") ∧
    (∀ (A : Adapter) (p : RawPath) (rest : List RawPath),
      Adapter.get_paths_by_pfx A "connections" = .ok (p :: rest) →
      (∀ q, tryIntoIbcPath p ≠ .ok (.Connections q)) →
      IbcConnectionService.connections A {} = .fatal "unexpected path") ∧
    (∀ (A : Adapter) (p : RawPath) (rest : List RawPath),
      Adapter.get_paths_by_pfx A "channelEnds/ports" = .ok (p :: rest) →
      (∀ q, tryIntoIbcPath p ≠ .ok (.ChannelEnds q)) →
      IbcChannelService.channels A {} = .fatal "unexpected path") ∧
    (∀ (A : Adapter) (p : RawPath),
      (∀ q, tryIntoIbcPath p ≠ .ok (.ClientState q)) →
      Adapter.get_paths_by_pfx A "clients" = .ok [p] →
      IbcClientService.client_states A {} =
        .ok { client_states := [], pagination := none }) ∧
    (∀ (A : Adapter) (cid : String) (p : RawPath),
      validIdentifier cid = true →
      (∀ q, tryIntoIbcPath p ≠ .ok (.ChannelEnds q)) →
      Adapter.get_paths_by_pfx A "channelEnds" = .ok [p] →
      IbcChannelService.connection_channels A { connection := cid } =
        .ok { channels := [], pagination := none,
              height := some { revision_number := CHAIN_REVISION_NUMBER,
                               revision_height := A.current_height } }) := by
  refine ⟨?_, ?_, ?_, ?_, ?_⟩
  · intro A cid p rest hv hscan hne
    have hfatal : IbcClientService.consensusStatesScan A (p :: rest) =
        .fatal "unexpected path" := by
      unfold IbcClientService.consensusStatesScan
      cases ht : tryIntoIbcPath p with
      | error e => rfl
      | ok ip =>
        cases ip <;> first
          | exact absurd ht (hne _)
          | rfl
    simp [IbcClientService.consensus_states, hv, hscan, hfatal]
  · intro A p rest hscan hne
    have hfatal : IbcConnectionService.connectionsScan A (p :: rest) =
        .fatal "unexpected path" := by
      unfold IbcConnectionService.connectionsScan
      cases ht : tryIntoIbcPath p with
      | error e => rfl
      | ok ip =>
        cases ip <;> first
          | exact absurd ht (hne _)
          | rfl
    simp [IbcConnectionService.connections, hscan, hfatal]
  · intro A p rest hscan hne
    have hfatal : IbcChannelService.channelsScan A (p :: rest) =
        .fatal "unexpected path" := by
      unfold IbcChannelService.channelsScan
      cases ht : tryIntoIbcPath p with
      | error e => rfl
      | ok ip =>
        cases ip <;> first
          | exact absurd ht (hne _)
          | rfl
    simp [IbcChannelService.channels, hscan, hfatal]
  · intro A p hne hscan
    have hnone : IbcClientService.client_state_paths p = none := by
      unfold IbcClientService.client_state_paths
      cases ht : tryIntoIbcPath p with
      | error e => rfl
      | ok ip =>
        cases ip <;> first
          | exact absurd ht (hne _)
          | rfl
    simp [IbcClientService.client_states, hscan, hnone,
      IbcClientService.clientStatesScan]
  · intro A cid p hv hne hscan
    have hskip : IbcChannelService.connectionChannelsScan A cid [p] = .ok [] := by
      unfold IbcChannelService.connectionChannelsScan
      cases ht : tryIntoIbcPath p with
      | error e => rfl
      | ok ip =>
        cases ip <;> first
          | exact absurd ht (hne _)
          | rfl
    simp [IbcChannelService.connection_channels, hv, hscan, hskip]

/-- Witness for C7: concrete mismatched paths make the homogeneous
scans panic and are skipped by the non-homogeneous ones. -/
theorem claim_c7_witness :
    IbcClientService.consensus_states
        (noneAdapter (.valid (.ClientState { client_id := "c0" }))) { client_id := "c0" } =
      .fatal "unexpected path" ∧
    IbcConnectionService.connections
        (noneAdapter (.valid (.ClientState { client_id := "c0" }))) {} =
      .fatal "unexpected path" ∧
    IbcChannelService.channels
        (noneAdapter (.valid (.ClientState { client_id := "c0" }))) {} =
      .fatal "unexpected path" ∧
    IbcClientService.client_states
        (noneAdapter (.valid (.Connections { connection_id := "connection-0" }))) {} =
      .ok { client_states := [], pagination := none } ∧
    IbcChannelService.connection_channels
        (noneAdapter (.valid (.ClientState { client_id := "c0" })))
        { connection := "connection-0" } =
      .ok { channels := [], pagination := none,
            height := some { revision_number := 0, revision_height := 7 } } :=
  ⟨claim_c7.1 (noneAdapter (.valid (.ClientState { client_id := "c0" }))) "c0"
     (.valid (.ClientState { client_id := "c0" })) [] (by decide) rfl
     (by intro q h; simp [tryIntoIbcPath] at h),
   claim_c7.2.1 (noneAdapter (.valid (.ClientState { client_id := "c0" })))
     (.valid (.ClientState { client_id := "c0" })) [] rfl
     (by intro q h; simp [tryIntoIbcPath] at h),
   claim_c7.2.2.1 (noneAdapter (.valid (.ClientState { client_id := "c0" })))
     (.valid (.ClientState { client_id := "c0" })) [] rfl
     (by intro q h; simp [tryIntoIbcPath] at h),
   claim_c7.2.2.2.1 (noneAdapter (.valid (.Connections { connection_id := "connection-0" })))
     (.valid (.Connections { connection_id := "connection-0" }))
     (by intro q h; simp [tryIntoIbcPath] at h) rfl,
   claim_c7.2.2.2.2 (noneAdapter (.valid (.ClientState { client_id := "c0" })))
     "connection-0" (.valid (.ClientState { client_id := "c0" })) (by decide)
     (by intro q h; simp [tryIntoIbcPath] at h) rfl⟩

/-! ## Claim C8 -/

/-- Claim C8: every RPC method declared but not implemented in this
milestone aborts with an explicit not-implemented panic before
producing any data; none of them silently returns a default or empty
response. -/
theorem claim_c8 :
    (∀ r : QueryClientStateRequest,
      IbcClientService.client_state r = .fatal "not implemented") ∧
    (∀ r : QueryConsensusStateRequest,
      IbcClientService.consensus_state r = .fatal "not implemented") ∧
    (∀ r : QueryConsensusStateHeightsRequest,
      IbcClientService.consensus_state_heights r = .fatal "not implemented") ∧
    (∀ r : QueryClientStatusRequest,
      IbcClientService.client_status r = .fatal "not implemented") ∧
    (∀ r : QueryClientParamsRequest,
      IbcClientService.client_params r = .fatal "not implemented") ∧
    (∀ r : QueryUpgradedClientStateRequest,
      IbcClientService.upgraded_client_state r = .fatal "not implemented") ∧
    (∀ r : QueryUpgradedConsensusStateRequest,
      IbcClientService.upgraded_consensus_state r = .fatal "not implemented") ∧
    (∀ r : QueryConnectionClientStateRequest,
      IbcConnectionService.connection_client_state r = .fatal "not yet implemented") ∧
    (∀ r : QueryConnectionConsensusStateRequest,
      IbcConnectionService.connection_consensus_state r = .fatal "not yet implemented") ∧
    (∀ r : QueryChannelClientStateRequest,
      IbcChannelService.channel_client_state r = .fatal "not yet implemented") ∧
    (∀ r : QueryChannelConsensusStateRequest,
      IbcChannelService.channel_consensus_state r = .fatal "not yet implemented") ∧
    (∀ r : QueryPacketCommitmentRequest,
      IbcChannelService.packet_commitment r = .fatal "not yet implemented") ∧
    (∀ r : QueryPacketReceiptRequest,
      IbcChannelService.packet_receipt r = .fatal "not yet implemented") ∧
    (∀ r : QueryPacketAcknowledgementRequest,
      IbcChannelService.packet_acknowledgement r = .fatal "not yet implemented") ∧
    (∀ r : QueryNextSequenceReceiveRequest,
      IbcChannelService.next_sequence_receive r = .fatal "not yet implemented") ∧
    (∀ r : MsgUpdateClient, update_client r = .fatal "not implemented") ∧
    (∀ r : MsgUpgradeClient, upgrade_client r = .fatal "not implemented") ∧
    (∀ r : MsgSubmitMisbehaviour, submit_misbehaviour r = .fatal "not implemented") :=
  ⟨fun _ => rfl, fun _ => rfl, fun _ => rfl, fun _ => rfl, fun _ => rfl, fun _ => rfl,
   fun _ => rfl, fun _ => rfl, fun _ => rfl, fun _ => rfl, fun _ => rfl, fun _ => rfl,
   fun _ => rfl, fun _ => rfl, fun _ => rfl, fun _ => rfl, fun _ => rfl, fun _ => rfl⟩

/-! ## Claim C9 -/

/-- Claim C9: in the ClientStates, Connections, Channels and
PacketCommitments scans, a listed path whose value is absent at
Pending height makes the handler panic (the unwrap and expect calls
in the source) instead of returning an error response or skipping the
entry, so a caller never observes that state as an RPC-level error. -/
theorem claim_c9 :
    (∀ (A : Adapter) (q : ClientStatePath) (rest : List RawPath),
      Adapter.get_paths_by_pfx A "clients" = .ok (.valid (.ClientState q) :: rest) →
      Adapter.get_client_state A StoreHeight.pending q = .ok none →
      IbcClientService.client_states A {} =
        .fatal "called Option::unwrap() on a None value") ∧
    (∀ (A : Adapter) (q : ConnectionsPath) (rest : List RawPath),
      Adapter.get_paths_by_pfx A "connections" = .ok (.valid (.Connections q) :: rest) →
      Adapter.get_connection_end A StoreHeight.pending q = .ok none →
      IbcConnectionService.connections A {} =
        .fatal "called Option::unwrap() on a None value") ∧
    (∀ (A : Adapter) (q : ChannelEndsPath) (rest : List RawPath),
      Adapter.get_paths_by_pfx A "channelEnds/ports" =
        .ok (.valid (.ChannelEnds q) :: rest) →
      Adapter.get_channel_end A StoreHeight.pending q = .ok none →
      IbcChannelService.channels A {} =
        .fatal "channel path returned by get_keys() had no associated channel") ∧
    (∀ (A : Adapter) (p c : String) (n : Nat) (rest : List RawPath),
      validIdentifier p = true → validIdentifier c = true →
      Adapter.get_paths_by_pfx A "commitments/ports" =
        .ok (.valid (.Commitments { port_id := p, channel_id := c, sequence := n })
          :: rest) →
      Adapter.get_packet_commitment A StoreHeight.pending
        { port_id := p, channel_id := c, sequence := n } = .ok none →
      IbcChannelService.packet_commitments A { port_id := p, channel_id := c } =
        .fatal "called Option::unwrap() on a None value") := by
  refine ⟨?_, ?_, ?_, ?_⟩
  · intro A q rest hscan hget
    simp [IbcClientService.client_states, hscan, IbcClientService.client_state_paths,
      tryIntoIbcPath, IbcClientService.clientStatesScan, hget]
  · intro A q rest hscan hget
    simp [IbcConnectionService.connections, hscan, tryIntoIbcPath,
      IbcConnectionService.connectionsScan, hget]
  · intro A q rest hscan hget
    simp [IbcChannelService.channels, hscan, tryIntoIbcPath,
      IbcChannelService.channelsScan, hget]
  · intro A p c n rest hvp hvc hscan hget
    simp [IbcChannelService.packet_commitments, hvp, hvc, hscan,
      IbcChannelService.matching_commitment_paths, tryIntoIbcPath,
      IbcChannelService.packetCommitmentsScan, hget]

/-- Witness for C9: concrete listed-but-absent values panic the four
handlers. -/
theorem claim_c9_witness :
    IbcClientService.client_states
        (noneAdapter (.valid (.ClientState { client_id := "c0" }))) {} =
      .fatal "called Option::unwrap() on a None value" ∧
    IbcConnectionService.connections
        (noneAdapter (.valid (.Connections { connection_id := "connection-0" }))) {} =
      .fatal "called Option::unwrap() on a None value" ∧
    IbcChannelService.channels
        (noneAdapter (.valid (.ChannelEnds { port_id := "p", channel_id := "c" }))) {} =
      .fatal "channel path returned by get_keys() had no associated channel" ∧
    IbcChannelService.packet_commitments
        (noneAdapter (.valid (.Commitments
          { port_id := "p", channel_id := "c", sequence := 1 })))
        { port_id := "p", channel_id := "c" } =
      .fatal "called Option::unwrap() on a None value" :=
  ⟨claim_c9.1 (noneAdapter (.valid (.ClientState { client_id := "c0" })))
     { client_id := "c0" } [] rfl rfl,
   claim_c9.2.1 (noneAdapter (.valid (.Connections { connection_id := "connection-0" })))
     { connection_id := "connection-0" } [] rfl rfl,
   claim_c9.2.2.1 (noneAdapter (.valid (.ChannelEnds { port_id := "p", channel_id := "c" })))
     { port_id := "p", channel_id := "c" } [] rfl rfl,
   claim_c9.2.2.2 (noneAdapter (.valid (.Commitments
       { port_id := "p", channel_id := "c", sequence := 1 })))
     "p" "c" 1 [] (by decide) (by decide) rfl rfl⟩

/-! ## Claim C10 (corrected) -/

/-- Counterexample for C10: the ConsensusStates query echoes the
epoch recorded in the stored path as the revision number of the
per-entry height, so a store holding a consensus state at epoch 5
makes an implemented query report a non-zero revision number. -/
theorem claim_c10_counterexample :
    IbcClientService.consensus_states epochAdapter { client_id := "c0" } =
      .ok { consensus_states :=
              [{ height := some { revision_number := 5, revision_height := 10 },
                 consensus_state := some { payload := [1] } }],
            pagination := none } ∧
    (5 : Nat) ≠ CHAIN_REVISION_NUMBER :=
  ⟨by decide, by decide⟩

/-- Claim C10 (amended): every Height this core constructs itself has
revision number 0: host_height builds Height::new(0, current_height),
and the chain-height field of every implemented query response that
populates it carries CHAIN_REVISION_NUMBER = 0 with only the revision
height varying; the per-entry heights of the ConsensusStates response,
however, echo the epoch stored in the path, which may be non-zero. -/
theorem claim_c10_amended :
    (∀ st : CtxState, (host_height st).revision_number = 0) ∧
    CHAIN_REVISION_NUMBER = 0 ∧
    (∀ (A : Adapter) (r : QueryChannelsRequest) (resp : QueryChannelsResponse),
      IbcChannelService.channels A r = .ok resp →
      resp.height = some { revision_number := CHAIN_REVISION_NUMBER,
                           revision_height := A.current_height }) ∧
    (∀ (A : Adapter) (r : QueryConnectionChannelsRequest)
        (resp : QueryConnectionChannelsResponse),
      IbcChannelService.connection_channels A r = .ok resp →
      resp.height = some { revision_number := CHAIN_REVISION_NUMBER,
                           revision_height := A.current_height }) ∧
    (∀ (A : Adapter) (r : QueryPacketCommitmentsRequest)
        (resp : QueryPacketCommitmentsResponse),
      IbcChannelService.packet_commitments A r = .ok resp →
      resp.height = some { revision_number := CHAIN_REVISION_NUMBER,
                           revision_height := A.current_height }) ∧
    (∀ (A : Adapter) (r : QueryPacketAcknowledgementsRequest)
        (resp : QueryPacketAcknowledgementsResponse),
      IbcChannelService.packet_acknowledgements A r = .ok resp →
      resp.height = some { revision_number := CHAIN_REVISION_NUMBER,
                           revision_height := A.current_height }) ∧
    (∀ (A : Adapter) (r : QueryUnreceivedPacketsRequest)
        (resp : QueryUnreceivedPacketsResponse),
      IbcChannelService.unreceived_packets A r = .ok resp →
      resp.height = some { revision_number := CHAIN_REVISION_NUMBER,
                           revision_height := A.current_height }) ∧
    (∀ (A : Adapter) (r : QueryUnreceivedAcksRequest)
        (resp : QueryUnreceivedAcksResponse),
      IbcChannelService.unreceived_acks A r = .ok resp →
      resp.height = some { revision_number := CHAIN_REVISION_NUMBER,
                           revision_height := A.current_height }) := by
  refine ⟨fun _ => rfl, rfl, ?_, ?_, ?_, ?_, ?_, ?_⟩
  · intro A r resp h
    unfold IbcChannelService.channels at h
    cases hg : Adapter.get_paths_by_pfx A "channelEnds/ports" with
    | error e => simp only [hg] at h; cases h
    | ok keys =>
      simp only [hg] at h
      cases hs : IbcChannelService.channelsScan A keys with
      | ok l => simp only [hs] at h; cases h; rfl
      | err s2 => simp only [hs] at h; cases h
      | fatal m => simp only [hs] at h; cases h
  · intro A r resp h
    unfold IbcChannelService.connection_channels at h
    by_cases hv : validIdentifier r.connection = true
    · simp only [hv, if_true] at h
      cases hg : Adapter.get_paths_by_pfx A "channelEnds" with
      | error e => simp only [hg] at h; cases h
      | ok keys =>
        simp only [hg] at h
        cases hs : IbcChannelService.connectionChannelsScan A r.connection keys with
        | ok l => simp only [hs] at h; cases h; rfl
        | err s2 => simp only [hs] at h; cases h
        | fatal m => simp only [hs] at h; cases h
    · rw [if_neg hv] at h; cases h
  · intro A r resp h
    unfold IbcChannelService.packet_commitments at h
    by_cases hvp : validIdentifier r.port_id = true
    · simp only [hvp, if_true] at h
      by_cases hvc : validIdentifier r.channel_id = true
      · simp only [hvc, if_true] at h
        cases hg : Adapter.get_paths_by_pfx A "commitments/ports" with
        | error e => simp only [hg] at h; cases h
        | ok keys =>
          simp only [hg] at h
          cases hs : IbcChannelService.packetCommitmentsScan A
              (keys.filterMap
                (IbcChannelService.matching_commitment_paths r.port_id r.channel_id)) with
          | ok l => simp only [hs] at h; cases h; rfl
          | err s2 => simp only [hs] at h; cases h
          | fatal m => simp only [hs] at h; cases h
      · rw [if_neg hvc] at h; cases h
    · rw [if_neg hvp] at h; cases h
  · intro A r resp h
    unfold IbcChannelService.packet_acknowledgements at h
    by_cases hvp : validIdentifier r.port_id = true
    · simp only [hvp, if_true] at h
      by_cases hvc : validIdentifier r.channel_id = true
      · simp only [hvc, if_true] at h
        cases hg : Adapter.get_paths_by_pfx A "acks/ports" with
        | error e => simp only [hg] at h; cases h
        | ok keys =>
          simp only [hg] at h
          cases hs : IbcChannelService.packetAcksScan A
              (keys.filterMap
                (IbcChannelService.matching_ack_paths r.port_id r.channel_id)) with
          | ok l => simp only [hs] at h; cases h; rfl
          | err s2 => simp only [hs] at h; cases h
          | fatal m => simp only [hs] at h; cases h
      · rw [if_neg hvc] at h; cases h
    · rw [if_neg hvp] at h; cases h
  · intro A r resp h
    unfold IbcChannelService.unreceived_packets at h
    by_cases hvp : validIdentifier r.port_id = true
    · simp only [hvp, if_true] at h
      by_cases hvc : validIdentifier r.channel_id = true
      · simp only [hvc, if_true] at h
        cases h
        rfl
      · rw [if_neg hvc] at h; cases h
    · rw [if_neg hvp] at h; cases h
  · intro A r resp h
    unfold IbcChannelService.unreceived_acks at h
    by_cases hvp : validIdentifier r.port_id = true
    · simp only [hvp, if_true] at h
      by_cases hvc : validIdentifier r.channel_id = true
      · simp only [hvc, if_true] at h
        cases h
        rfl
      · rw [if_neg hvc] at h; cases h
    · rw [if_neg hvp] at h; cases h

/-- Witness for C10 (amended): host_height of a concrete context and
the chain-height of a concrete Channels response both carry revision
number 0. -/
theorem claim_c10_amended_witness :
    (host_height sampleCtx).revision_number = 0 ∧
    ({ channels := [], pagination := none,
       height := some { revision_number := 0, revision_height := 7 } }
        : QueryChannelsResponse).height =
      some { revision_number := CHAIN_REVISION_NUMBER,
             revision_height := Adapter.current_height emptyAdapter } :=
  ⟨claim_c10_amended.1 sampleCtx,
   claim_c10_amended.2.2.1 emptyAdapter {}
     { channels := [], pagination := none,
       height := some { revision_number := 0, revision_height := 7 } } (by decide)⟩

end Axon
